import Mathlib

/-!
Verification of the moderation decision-and-escalation pipeline of the
ai-antiscam-bot repository, as a shallow embedding in Lean 4.

The embedding follows the Python source:
  * `app/moderation/llm_client.py` / `app/moderation/schemas.py`
    (classification gateway), with JSON values as an inductive type,
    `json.loads` of the inner content string as an explicit parameter,
    and Python exception propagation made explicit in `Except`;
  * `app/handlers/messages.py` (gating, persistence, strike ledger,
    enforcement escalation, admin notification fan-out);
  * `app/handlers/admin.py` (human-override callback handlers).

Databases are lists of rows; machine floats of the source are modelled
as rationals; timestamps are abstract `Nat` ticks; all external calls
(transport, classifier) are inputs of the modelled functions.
-/

namespace AntiScam

/-! ## JSON values and Python-style subscripting (llm_client.py) -/

/-- A JSON value, as produced by Python's `json` module. -/
inductive Json where
  | null
  | bool (b : Bool)
  | num (q : ℚ)
  | str (s : String)
  | arr (items : List Json)
  | obj (fields : List (String × Json))

/-- The Python exceptions that can escape the response-processing code of
`classify_text`: `KeyError`/`IndexError` (caught together in the source),
`TypeError` (never caught), and `json.JSONDecodeError` as raised by
`resp.json()` (caught only around `json.loads(content)`). -/
inductive PyErr where
  | keyOrIndexError
  | typeError
  | jsonDecodeError
deriving DecidableEq

/-- Python `j[k]` for a string key `k`: dict lookup (KeyError when the key is
missing), `TypeError` on every non-dict value. -/
def pyGetKey (j : Json) (k : String) : Except PyErr Json :=
  match j with
  | .obj fields =>
    match fields.find? (fun f => f.1 == k) with
    | some f => .ok f.2
    | none => .error .keyOrIndexError
  | _ => .error .typeError

/-- Python `j[0]`: list indexing (IndexError when empty), dict lookup with the
integer key `0` (KeyError, since `json.loads` produces string keys only),
string indexing (a one-character string, IndexError when empty), and
`TypeError` on everything else. -/
def pyIndex0 (j : Json) : Except PyErr Json :=
  match j with
  | .arr items =>
    match items.head? with
    | some v => .ok v
    | none => .error .keyOrIndexError
  | .obj _ => .error .keyOrIndexError
  | .str s =>
    match s.data.head? with
    | some c => .ok (.str (String.mk [c]))
    | none => .error .keyOrIndexError
  | _ => .error .typeError

/-- `data["choices"][0]["message"]["content"]` from `classify_text`. -/
def extractContent (data : Json) : Except PyErr Json := do
  let choices ← pyGetKey data "choices"
  let first ← pyIndex0 choices
  let msg ← pyGetKey first "message"
  pyGetKey msg "content"

/-! ## The verdict schema (schemas.py) -/

/-- The fixed category enum of `schemas.Category`. -/
def CATEGORIES : List String :=
  ["job_scam", "crypto", "investment", "phishing", "other", "none"]

/-- `schemas.LlmModerationResult`: a validated classifier verdict. -/
structure LlmModerationResult where
  label : String
  category : String
  confidence : ℚ
  reason : String
  raw_response : Option Json

/-- Field lookup in a parsed JSON object, as Python keyword-argument passing
of `LlmModerationResult(**parsed, ...)` sees it. -/
def getField (fields : List (String × Json)) (k : String) : Option Json :=
  (fields.find? (fun f => f.1 == k)).map (fun f => f.2)

/-- Pydantic validation of `LlmModerationResult(**parsed, raw_response=data)`:
`parsed` must be a JSON object carrying a `label` in SCAM/OK, a `category`
in the fixed enum, a numeric `confidence` in [0,1] and a string `reason`;
every failure is caught by the source's `except Exception` and yields no
verdict. -/
def validateLlmResult (parsed : Json) (data : Json) : Option LlmModerationResult :=
  match parsed with
  | .obj fields =>
    match getField fields "label",
          getField fields "category",
          getField fields "confidence",
          getField fields "reason" with
    | some (.str l), some (.str c), some (.num q), some (.str rs) =>
      if (l = "SCAM" ∨ l = "OK") ∧ c ∈ CATEGORIES ∧ 0 ≤ q ∧ q ≤ 1 then
        some ⟨l, c, q, rs, some data⟩
      else
        none
    | _, _, _, _ => none
  | _ => none

/-- Outcome of the single HTTP call made by `classify_text`:
either an `httpx.HTTPError` (transport failure, timeout, or non-2xx status
raised by `raise_for_status` — all caught by the source), or a received
response whose body is carried as `some` JSON value when the body text is
valid JSON and `none` when `resp.json()` would fail to parse it. -/
inductive HttpOutcome where
  | transportError
  | response (body : Option Json)

/-- `llm_client.classify_text`, from the HTTP outcome onwards.
`loads` stands for Python's `json.loads` on the inner content string
(`none` = `json.JSONDecodeError`).  A `.ok` value is the function's return
value; a `.error` value is a Python exception escaping to the caller. -/
def classify_text (loads : String → Option Json) (outcome : HttpOutcome) :
    Except PyErr (Option LlmModerationResult) :=
  match outcome with
  | .transportError => .ok none
  | .response body =>
    match body with
    | none => .error .jsonDecodeError
    | some data =>
      match extractContent data with
      | .error .keyOrIndexError => .ok none
      | .error e => .error e
      | .ok content =>
        match content with
        | .str s =>
          match loads s with
          | none => .ok none
          | some parsed => .ok (validateLlmResult parsed data)
        | _ => .error .typeError

/-! ## Transport effects and enforcement escalation (messages.py) -/

/-- An external transport action attempted by the pipeline. -/
inductive Effect where
  | deleteMsg (chat_id : Int) (message_id : Int)
  | sendMsg (chat_id : Int)
  | restrict (chat_id : Int) (user_id : Int) (hours : Nat)
  | ban (chat_id : Int) (user_id : Int)
  | adminCard (target_chat_id : Int) (strike_count : Option Nat) (record_id : Option Nat)
  | editCard
  | answerAlert
  | answerOk
deriving DecidableEq, Repr

/-- Is the effect one of the enforcement/notification actions
(delete, warn message, mute restriction, ban)? -/
def isEnforcementEffect : Effect → Bool
  | .deleteMsg _ _ => true
  | .sendMsg _ => true
  | .restrict _ _ _ => true
  | .ban _ _ => true
  | _ => false

/-- `messages.MAX_STRIKES_WARN`. -/
def MAX_STRIKES_WARN : Int := 1
/-- `messages.MAX_STRIKES_MUTE`. -/
def MAX_STRIKES_MUTE : Int := 2
/-- `messages.MAX_STRIKES_BAN`. -/
def MAX_STRIKES_BAN : Int := 3
/-- `messages.MUTE_HOURS`. -/
def MUTE_HOURS : Nat := 24

/-- `messages.apply_escalation`: the transport actions attempted for a given
strike count (the surrounding `try`/`except` of the source catches transport
errors; the selection itself is pure). -/
def apply_escalation (chat_id : Int) (user_id : Int) (strike_count : Option Int) :
    List Effect :=
  match strike_count with
  | none => []
  | some n =>
    if n = MAX_STRIKES_WARN then
      [.sendMsg chat_id]
    else if n = MAX_STRIKES_MUTE then
      [.restrict chat_id user_id MUTE_HOURS, .sendMsg chat_id]
    else if MAX_STRIKES_BAN ≤ n then
      [.ban chat_id user_id, .sendMsg chat_id]
    else
      []

/-! ## Notification target resolution (messages.notify_admins_about_scam) -/

/-- The target-list construction of `notify_admins_about_scam`
(messages.py lines 247-252): the bound local admin-chat id first (if any),
then each global admin-chat id, in configured order, that is not already in
the list. -/
def resolveTargets (local_admin_chat_id : Option Int) (global_ids : List Int) :
    List Int :=
  let t0 : List Int :=
    match local_admin_chat_id with
    | some l => [l]
    | none => []
  global_ids.foldl (fun acc cid => if acc.contains cid then acc else acc ++ [cid]) t0

/-! ## Data model (db/models.py) and incoming Telegram objects -/

/-- Process configuration (config.py), read once at start:
the global admin-chat ids (`admin_chat_ids`, already split and parsed),
the confidence threshold and the model identifier. -/
structure Config where
  global_admin_chat_ids : List Int
  default_confidence_threshold : ℚ
  openai_model : String

/-- `models.Chat`: a monitored chat row. -/
structure Chat where
  id : Nat
  telegram_chat_id : Int
  title : Option String
  type : String
  admin_chat_telegram_id : Option Int
deriving DecidableEq

/-- `models.User`: a participant row. -/
structure User where
  id : Nat
  telegram_user_id : Int
  username : Option String
  first_name : Option String
  last_name : Option String
  is_global_whitelisted : Bool
deriving DecidableEq

/-- `models.ChatMember`: the (chat, user) membership row holding the strike
ledger state. -/
structure ChatMember where
  chat_id : Nat
  user_id : Nat
  is_whitelisted : Bool
  is_blacklisted : Bool
  strike_count : Nat
  last_strike_at : Option Nat
deriving DecidableEq, Repr

/-- `models.Message`: one moderation record per inspected message. -/
structure MessageRecord where
  id : Nat
  chat_id : Nat
  user_id : Nat
  telegram_message_id : Int
  text : String
  model_label : Option String
  model_category : Option String
  model_confidence : Option ℚ
  model_reason : Option String
  model_raw_json : Option Json
  model_version : Option String
  human_label : Option String
  human_labeled_at : Option Nat
  human_labeled_by : Option Nat
  is_scam_effective : Option Bool
  skipped_reason : Option String

/-- The relational store: the four tables plus the autoincrement counters of
their integer primary keys (memberships are keyed by their (chat, user)
pair here). -/
structure DbState where
  chats : List Chat
  users : List User
  members : List ChatMember
  messages : List MessageRecord
  next_chat_id : Nat
  next_user_id : Nat
  next_msg_id : Nat

/-- An incoming Telegram user (aiogram `types.User`). -/
structure TgUser where
  id : Int
  is_bot : Bool
  username : Option String
  first_name : Option String
  last_name : Option String

/-- An incoming Telegram message (the parts of aiogram `types.Message` the
pipeline reads). -/
structure TgMessage where
  chat_id : Int
  chat_type : String
  chat_title : Option String
  message_id : Int
  from_user : Option TgUser
  text : Option String

/-- Well-formedness of a database state, as guaranteed by the schema's
unique constraints and primary-key autoincrement: unique primary keys and
unique natural keys, every id below its table's counter, and membership
rows referencing allocated ids only. -/
def WF (db : DbState) : Prop :=
  (db.chats.map (fun c => c.id)).Nodup ∧
  (db.chats.map (fun c => c.telegram_chat_id)).Nodup ∧
  (db.users.map (fun u => u.id)).Nodup ∧
  (db.users.map (fun u => u.telegram_user_id)).Nodup ∧
  (db.members.map (fun m => (m.chat_id, m.user_id))).Nodup ∧
  (∀ c ∈ db.chats, c.id < db.next_chat_id) ∧
  (∀ u ∈ db.users, u.id < db.next_user_id) ∧
  (∀ m ∈ db.members, m.chat_id < db.next_chat_id ∧ m.user_id < db.next_user_id)

instance (db : DbState) : Decidable (WF db) := by
  unfold WF; exact inferInstance

/-! ## Gating predicates (messages.py) -/

/-- `messages.is_admin_chat_id`: the chat is a global admin chat from the
configuration, or is bound as some monitored chat's admin chat. -/
def is_admin_chat_id (cfg : Config) (db : DbState) (chat_id : Int) : Bool :=
  cfg.global_admin_chat_ids.contains chat_id ||
    db.chats.any (fun c => c.admin_chat_telegram_id == some chat_id)

/-- `messages.is_service_or_bot_message`: no sender, a bot sender, or no
text. -/
def is_service_or_bot_message (msg : TgMessage) : Bool :=
  match msg.from_user with
  | none => true
  | some fu =>
    if fu.is_bot then true
    else if msg.text.isNone then true
    else false

/-- `messages.is_whitelisted`: globally whitelisted user, or whitelisted
membership in this chat. -/
def is_whitelisted (db : DbState) (chat_id : Int) (user_id : Int) : Bool :=
  match db.users.find? (fun u => u.telegram_user_id == user_id) with
  | none => false
  | some u =>
    if u.is_global_whitelisted then true
    else
      match db.chats.find? (fun c => c.telegram_chat_id == chat_id) with
      | none => false
      | some c =>
        match db.members.find? (fun m => m.chat_id == c.id && m.user_id == u.id) with
        | none => false
        | some m => m.is_whitelisted

/-- The strike count currently recorded for a (chat, participant) pair, at
Telegram identity level; 0 when any of the chat row, user row or membership
row is absent (the ledger's creation default). -/
def strikeOf (db : DbState) (tcid : Int) (tuid : Int) : Nat :=
  match db.chats.find? (fun c => c.telegram_chat_id == tcid) with
  | none => 0
  | some c =>
    match db.users.find? (fun u => u.telegram_user_id == tuid) with
    | none => 0
    | some u =>
      match db.members.find? (fun m => m.chat_id == c.id && m.user_id == u.id) with
      | none => 0
      | some m => m.strike_count

/-! ## Persistence steps of `handle_message` -/

/-- The chat upsert of `handle_message`: find by `telegram_chat_id`, create
the row (title, type, no admin binding) when absent. -/
def newChatRow (db : DbState) (tcid : Int) (title : Option String)
    (ty : String) : Chat :=
  { id := db.next_chat_id, telegram_chat_id := tcid, title := title,
    type := ty, admin_chat_telegram_id := none }

def getOrCreateChat (db : DbState) (tcid : Int) (title : Option String)
    (ty : String) : Chat × DbState :=
  match db.chats.find? (fun c => c.telegram_chat_id == tcid) with
  | some c => (c, db)
  | none =>
    (newChatRow db tcid title ty,
     { db with chats := db.chats ++ [newChatRow db tcid title ty],
               next_chat_id := db.next_chat_id + 1 })

/-- The user upsert shared by `handle_message` and
`admin._get_or_create_user_by_telegram`: find by `telegram_user_id`,
refresh the display-name fields when found, create the row when absent. -/
def refreshNames (tg : TgUser) (u : User) : User :=
  { u with username := tg.username, first_name := tg.first_name,
           last_name := tg.last_name }

def newUserRow (db : DbState) (tg : TgUser) : User :=
  { id := db.next_user_id, telegram_user_id := tg.id, username := tg.username,
    first_name := tg.first_name, last_name := tg.last_name,
    is_global_whitelisted := false }

def upsertUser (db : DbState) (tg : TgUser) : User × DbState :=
  match db.users.find? (fun u => u.telegram_user_id == tg.id) with
  | some u =>
    (refreshNames tg u,
     { db with users := db.users.map (fun x =>
         if x.id == u.id then refreshNames tg u else x) })
  | none =>
    (newUserRow db tg,
     { db with users := db.users ++ [newUserRow db tg],
               next_user_id := db.next_user_id + 1 })

/-- The membership upsert of `handle_message`: find by the (chat, user) pair,
create a default row (strike_count 0) when absent. -/
def newMemberRow (cid : Nat) (uid : Nat) : ChatMember :=
  { chat_id := cid, user_id := uid, is_whitelisted := false,
    is_blacklisted := false, strike_count := 0, last_strike_at := none }

def getOrCreateMember (db : DbState) (cid : Nat) (uid : Nat) :
    ChatMember × DbState :=
  match db.members.find? (fun m => m.chat_id == cid && m.user_id == uid) with
  | some m => (m, db)
  | none =>
    (newMemberRow cid uid, { db with members := db.members ++ [newMemberRow cid uid] })

/-- The strike increment of `handle_message` (messages.py lines 442-445):
`member.strike_count = (member.strike_count or 0) + 1` plus the
`last_strike_at` stamp, on the membership row of the pair. -/
def bumpStrike (db : DbState) (cid : Nat) (uid : Nat) (now : Nat) : DbState :=
  { db with
    members := db.members.map (fun m =>
      if m.chat_id == cid && m.user_id == uid then
        { m with strike_count := m.strike_count + 1, last_strike_at := some now }
      else m) }

/-! ## Notification fan-out (messages.notify_admins_about_scam) -/

/-- The local-admin-chat lookup of `notify_admins_about_scam` (messages.py
lines 235-241): the bound `admin_chat_telegram_id` of the source chat's row,
if any. -/
def localAdminChatId (db : DbState) (source_chat_id : Int) : Option Int :=
  match db.chats.find? (fun c => c.telegram_chat_id == source_chat_id) with
  | some c => c.admin_chat_telegram_id
  | none => none

/-- `messages.notify_admins_about_scam`: re-query the source chat's bound
admin-chat id, resolve the target list, and send one card per target (an
empty target list sends nothing). -/
def notify_admins_about_scam (cfg : Config) (db : DbState) (source_chat_id : Int)
    (strike_count : Option Nat) (message_db_id : Option Nat) : List Effect :=
  let targets :=
    resolveTargets (localAdminChatId db source_chat_id) cfg.global_admin_chat_ids
  targets.map (fun t => Effect.adminCard t strike_count message_db_id)

/-! ## The per-message pipeline (messages.handle_message) -/

/-- Result of one pipeline run: the database afterwards, the transport
actions attempted, and whether the classifier was invoked. -/
structure PipelineResult where
  db : DbState
  effects : List Effect
  classifier_called : Bool

/-- The effective-scam policy decision of `handle_message` (messages.py
lines 386-387): `result.label == "SCAM" and result.confidence >= threshold`. -/
def is_scam_policy_of (cfg : Config) (result : LlmModerationResult) : Bool :=
  (result.label == "SCAM") &&
    decide (cfg.default_confidence_threshold ≤ result.confidence)

/-- The skip reason of `handle_message` (messages.py lines 388-390). -/
def skipped_reason_of (cfg : Config) (result : LlmModerationResult) : Option String :=
  if (result.label == "SCAM") && !(is_scam_policy_of cfg result) then
    some "low_confidence"
  else none

/-- The moderation record inserted by `handle_message` (messages.py lines
448-464): all classifier fields filled from the verdict, human-override
fields empty, policy outcome as decided. -/
def moderationRecordOf (cfg : Config) (msg : TgMessage) (text : String)
    (result : LlmModerationResult) (rid cid uid : Nat) : MessageRecord :=
  { id := rid, chat_id := cid, user_id := uid,
    telegram_message_id := msg.message_id, text := text,
    model_label := some result.label,
    model_category := some result.category,
    model_confidence := some result.confidence,
    model_reason := some result.reason,
    model_raw_json := result.raw_response,
    model_version := some cfg.openai_model,
    human_label := none, human_labeled_at := none, human_labeled_by := none,
    is_scam_effective := some (is_scam_policy_of cfg result),
    skipped_reason := skipped_reason_of cfg result }

/-- The live tail of `handle_message`, entered once every gate has passed and
a verdict exists: the persistence block (`# 2` in the source — chat, user,
member upserts, conditional strike increment, record insert) followed by the
enforcement and notification block (`# 3`). -/
def persist_and_act (cfg : Config) (now : Nat) (msg : TgMessage)
    (from_user : TgUser) (text : String) (result : LlmModerationResult)
    (db : DbState) : PipelineResult :=
  let is_scam_policy := is_scam_policy_of cfg result
  let chatDb := getOrCreateChat db msg.chat_id msg.chat_title msg.chat_type
  let chat := chatDb.1
  let userDb := upsertUser chatDb.2 from_user
  let user := userDb.1
  let memberDb := getOrCreateMember userDb.2 chat.id user.id
  let member := memberDb.1
  let new_strike_count : Option Nat :=
    if is_scam_policy then some (member.strike_count + 1) else none
  let db4 : DbState :=
    if is_scam_policy then bumpStrike memberDb.2 chat.id user.id now
    else memberDb.2
  let rec_ : MessageRecord :=
    moderationRecordOf cfg msg text result db4.next_msg_id chat.id user.id
  let db5 : DbState :=
    { db4 with messages := db4.messages ++ [rec_],
               next_msg_id := db4.next_msg_id + 1 }
  let effects : List Effect :=
    if is_scam_policy then
      [Effect.deleteMsg msg.chat_id msg.message_id]
        ++ apply_escalation msg.chat_id from_user.id
             (new_strike_count.map (fun n => (n : Int)))
        ++ notify_admins_about_scam cfg db5 msg.chat_id new_strike_count
             (some rec_.id)
    else []
  ⟨db5, effects, true⟩

/-- `messages.handle_message`.  External collaborators appear as inputs:
`sender_is_chat_admin` is the transport's answer to the chat-administrator
check (false also when that call fails, as in `is_admin`), and `verdict` is
what `classify_text` would return for the message text (`none` = no
verdict). -/
def handle_message (cfg : Config) (now : Nat) (sender_is_chat_admin : Bool)
    (verdict : Option LlmModerationResult) (msg : TgMessage) (db : DbState) :
    PipelineResult :=
  if ¬ (msg.chat_type = "group" ∨ msg.chat_type = "supergroup") then
    ⟨db, [], false⟩
  else if is_admin_chat_id cfg db msg.chat_id then
    ⟨db, [], false⟩
  else if is_service_or_bot_message msg then
    ⟨db, [], false⟩
  else
    match msg.from_user, msg.text with
    | some from_user, some text =>
      if sender_is_chat_admin || is_whitelisted db msg.chat_id from_user.id then
        ⟨db, [], false⟩
      else
        match verdict with
        | none => ⟨db, [], true⟩
        | some result => persist_and_act cfg now msg from_user text result db
    | _, _ => ⟨db, [], false⟩

/-! ## Human-override callbacks (admin.cb_not_scam / cb_mark_scam) -/

/-- The shared body of `admin.cb_not_scam` and `admin.cb_mark_scam`, after
the callback-data parse: load the record, load its source chat, check that
the invoking chat is a global admin chat or the bound admin chat, then
upsert the reviewer and overwrite the record's human-label fields, editing
the card and answering the callback. -/
def cb_apply_human_label (cfg : Config) (now : Nat) (label_value : String)
    (reviewer : TgUser) (invoking_chat_id : Int) (record_id : Nat)
    (db : DbState) : DbState × List Effect :=
  match db.messages.find? (fun m => m.id == record_id) with
  | none => (db, [.answerAlert])
  | some msg_obj =>
    match db.chats.find? (fun c => c.id == msg_obj.chat_id) with
    | none => (db, [.answerAlert])
    | some chat_obj =>
      if ¬ cfg.global_admin_chat_ids.contains invoking_chat_id = true ∧
          chat_obj.admin_chat_telegram_id ≠ some invoking_chat_id then
        (db, [.answerAlert])
      else
        let userDb := upsertUser db reviewer
        let admin_user := userDb.1
        let db2 : DbState :=
          { userDb.2 with
            messages := userDb.2.messages.map (fun m =>
              if m.id == record_id then
                { m with human_label := some label_value,
                         human_labeled_at := some now,
                         human_labeled_by := some admin_user.id }
              else m) }
        (db2, [.editCard, .answerOk])

/-- `admin.cb_not_scam`: record the human decision NOT_SCAM. -/
def cb_not_scam (cfg : Config) (now : Nat) (reviewer : TgUser)
    (invoking_chat_id : Int) (record_id : Nat) (db : DbState) :
    DbState × List Effect :=
  cb_apply_human_label cfg now "NOT_SCAM" reviewer invoking_chat_id record_id db

/-- `admin.cb_mark_scam`: record the human decision SCAM. -/
def cb_mark_scam (cfg : Config) (now : Nat) (reviewer : TgUser)
    (invoking_chat_id : Int) (record_id : Nat) (db : DbState) :
    DbState × List Effect :=
  cb_apply_human_label cfg now "SCAM" reviewer invoking_chat_id record_id db

/-! ## List helper lemmas -/

theorem find?_map_self {α : Type} (g : α → α) (p : α → Bool) (l : List α)
    (h : ∀ x ∈ l, p (g x) = p x) :
    (l.map g).find? p = (l.find? p).map g := by
  induction l with
  | nil => rfl
  | cons a t ih =>
    have ha := h a (by simp)
    by_cases hp : p a = true
    · rw [List.map_cons, List.find?_cons_of_pos _ (by rw [ha]; exact hp),
        List.find?_cons_of_pos _ hp, Option.map_some']
    · rw [List.map_cons, List.find?_cons_of_neg _ (by rw [ha]; exact hp),
        List.find?_cons_of_neg _ hp]
      exact ih (fun x hx => h x (by simp [hx]))

theorem find?_append_one {α : Type} (l : List α) (x : α) (p : α → Bool) :
    (l ++ [x]).find? p =
      ((l.find? p).or (if p x then some x else none)) := by
  rw [List.find?_append]
  congr 1
  by_cases hp : p x = true
  · rw [List.find?_cons_of_pos _ hp, if_pos hp]
  · rw [List.find?_cons_of_neg _ hp, if_neg hp]
    rfl

theorem map_id_of_field {α β : Type} (g : α → α) (f : α → β) (l : List α)
    (h : ∀ x, f (g x) = f x) : (l.map g).map f = l.map f := by
  rw [List.map_map]
  exact List.map_congr_left (fun x _ => h x)

/-! ## Projection lemmas for the persistence steps -/

theorem getOrCreateChat_users (db : DbState) (tcid : Int) (ti : Option String)
    (ty : String) : (getOrCreateChat db tcid ti ty).2.users = db.users := by
  unfold getOrCreateChat; split <;> rfl

theorem getOrCreateChat_members (db : DbState) (tcid : Int) (ti : Option String)
    (ty : String) : (getOrCreateChat db tcid ti ty).2.members = db.members := by
  unfold getOrCreateChat; split <;> rfl

theorem getOrCreateChat_messages (db : DbState) (tcid : Int) (ti : Option String)
    (ty : String) : (getOrCreateChat db tcid ti ty).2.messages = db.messages := by
  unfold getOrCreateChat; split <;> rfl

theorem getOrCreateChat_next_user (db : DbState) (tcid : Int) (ti : Option String)
    (ty : String) : (getOrCreateChat db tcid ti ty).2.next_user_id = db.next_user_id := by
  unfold getOrCreateChat; split <;> rfl

theorem getOrCreateChat_next_msg (db : DbState) (tcid : Int) (ti : Option String)
    (ty : String) : (getOrCreateChat db tcid ti ty).2.next_msg_id = db.next_msg_id := by
  unfold getOrCreateChat; split <;> rfl

theorem getOrCreateChat_tg (db : DbState) (tcid : Int) (ti : Option String)
    (ty : String) : (getOrCreateChat db tcid ti ty).1.telegram_chat_id = tcid := by
  unfold getOrCreateChat
  cases h : db.chats.find? (fun c => c.telegram_chat_id == tcid) with
  | some c =>
    have := List.find?_some h
    simpa using this
  | none => simp [newChatRow]

theorem getOrCreateChat_find (db : DbState) (tcid : Int) (ti : Option String)
    (ty : String) :
    (getOrCreateChat db tcid ti ty).2.chats.find?
        (fun c => c.telegram_chat_id == tcid) =
      some (getOrCreateChat db tcid ti ty).1 := by
  unfold getOrCreateChat
  cases h : db.chats.find? (fun c => c.telegram_chat_id == tcid) with
  | some c => simpa using h
  | none => simp [find?_append_one, h, newChatRow]

theorem upsertUser_chats (db : DbState) (tg : TgUser) :
    (upsertUser db tg).2.chats = db.chats := by
  unfold upsertUser; split <;> rfl

theorem upsertUser_members (db : DbState) (tg : TgUser) :
    (upsertUser db tg).2.members = db.members := by
  unfold upsertUser; split <;> rfl

theorem upsertUser_messages (db : DbState) (tg : TgUser) :
    (upsertUser db tg).2.messages = db.messages := by
  unfold upsertUser; split <;> rfl

theorem upsertUser_next_chat (db : DbState) (tg : TgUser) :
    (upsertUser db tg).2.next_chat_id = db.next_chat_id := by
  unfold upsertUser; split <;> rfl

theorem upsertUser_next_msg (db : DbState) (tg : TgUser) :
    (upsertUser db tg).2.next_msg_id = db.next_msg_id := by
  unfold upsertUser; split <;> rfl

theorem upsertUser_next_user_ge (db : DbState) (tg : TgUser) :
    db.next_user_id ≤ (upsertUser db tg).2.next_user_id := by
  unfold upsertUser; split <;> simp

theorem upsertUser_tg (db : DbState) (tg : TgUser) :
    (upsertUser db tg).1.telegram_user_id = tg.id := by
  unfold upsertUser
  cases h : db.users.find? (fun u => u.telegram_user_id == tg.id) with
  | some u =>
    have := List.find?_some h
    simpa using this
  | none => rfl

theorem getOrCreateMember_chats (db : DbState) (cid uid : Nat) :
    (getOrCreateMember db cid uid).2.chats = db.chats := by
  unfold getOrCreateMember; split <;> rfl

theorem getOrCreateMember_users (db : DbState) (cid uid : Nat) :
    (getOrCreateMember db cid uid).2.users = db.users := by
  unfold getOrCreateMember; split <;> rfl

theorem getOrCreateMember_messages (db : DbState) (cid uid : Nat) :
    (getOrCreateMember db cid uid).2.messages = db.messages := by
  unfold getOrCreateMember; split <;> rfl

theorem getOrCreateMember_next_chat (db : DbState) (cid uid : Nat) :
    (getOrCreateMember db cid uid).2.next_chat_id = db.next_chat_id := by
  unfold getOrCreateMember; split <;> rfl

theorem getOrCreateMember_next_user (db : DbState) (cid uid : Nat) :
    (getOrCreateMember db cid uid).2.next_user_id = db.next_user_id := by
  unfold getOrCreateMember; split <;> rfl

theorem getOrCreateMember_next_msg (db : DbState) (cid uid : Nat) :
    (getOrCreateMember db cid uid).2.next_msg_id = db.next_msg_id := by
  unfold getOrCreateMember; split <;> rfl

theorem getOrCreateMember_find (db : DbState) (cid uid : Nat) :
    (getOrCreateMember db cid uid).2.members.find?
        (fun m => m.chat_id == cid && m.user_id == uid) =
      some (getOrCreateMember db cid uid).1 := by
  unfold getOrCreateMember
  cases h : db.members.find? (fun m => m.chat_id == cid && m.user_id == uid) with
  | some m => simpa using h
  | none => simp [find?_append_one, h, newMemberRow]

theorem bumpStrike_chats (db : DbState) (cid uid now : Nat) :
    (bumpStrike db cid uid now).chats = db.chats := rfl

theorem bumpStrike_users (db : DbState) (cid uid now : Nat) :
    (bumpStrike db cid uid now).users = db.users := rfl

theorem bumpStrike_messages (db : DbState) (cid uid now : Nat) :
    (bumpStrike db cid uid now).messages = db.messages := rfl

theorem bumpStrike_next_msg (db : DbState) (cid uid now : Nat) :
    (bumpStrike db cid uid now).next_msg_id = db.next_msg_id := rfl

/-! ## strikeOf through the persistence steps -/

theorem strikeOf_getOrCreateChat (db : DbState) (tcid : Int) (ti : Option String)
    (ty : String)
    (href : ∀ m ∈ db.members, m.chat_id < db.next_chat_id)
    (tc tu : Int) :
    strikeOf (getOrCreateChat db tcid ti ty).2 tc tu = strikeOf db tc tu := by
  unfold getOrCreateChat
  cases h : db.chats.find? (fun c => c.telegram_chat_id == tcid) with
  | some c => rfl
  | none =>
    unfold strikeOf
    simp only [find?_append_one]
    cases h2 : db.chats.find? (fun c => c.telegram_chat_id == tc) with
    | some c' => simp
    | none =>
      simp only [Option.none_or]
      by_cases h3 : (newChatRow db tcid ti ty).telegram_chat_id == tc
      · simp only [h3, if_pos]
        cases h4 : db.users.find? (fun u => u.telegram_user_id == tu) with
        | none => simp
        | some u =>
          simp only
          have hnone : db.members.find?
              (fun m => m.chat_id == (newChatRow db tcid ti ty).id && m.user_id == u.id)
              = none := by
            rw [List.find?_eq_none]
            intro m hm
            have := (href m hm)
            simp only [newChatRow, Bool.and_eq_true, beq_iff_eq]
            rintro ⟨h7, -⟩
            omega
          simp [hnone]
      · simp only [h3]
        simp

theorem strikeOf_upsertUser (db : DbState) (tg : TgUser)
    (hid : (db.users.map (fun u => u.id)).Nodup)
    (href : ∀ m ∈ db.members, m.user_id < db.next_user_id)
    (tc tu : Int) :
    strikeOf (upsertUser db tg).2 tc tu = strikeOf db tc tu := by
  unfold upsertUser
  cases h : db.users.find? (fun u => u.telegram_user_id == tg.id) with
  | some u =>
    have hu : u ∈ db.users := List.mem_of_find?_eq_some h
    have hmap : ∀ x ∈ db.users,
        ((if x.id == u.id then refreshNames tg u else x).telegram_user_id == tu)
          = (x.telegram_user_id == tu) := by
      intro x hx
      by_cases hxid : x.id == u.id
      · have hxu : x = u :=
          List.inj_on_of_nodup_map hid hx hu (by simpa using hxid)
        subst hxu
        simp [hxid, refreshNames]
      · simp [hxid]
    unfold strikeOf
    simp only
    cases h2 : db.chats.find? (fun c => c.telegram_chat_id == tc) with
    | none => simp
    | some c' =>
      simp only
      rw [find?_map_self _ _ _ hmap]
      cases h4 : db.users.find? (fun x => x.telegram_user_id == tu) with
      | none => simp
      | some u' =>
        have hu' : u' ∈ db.users := List.mem_of_find?_eq_some h4
        by_cases hid' : u'.id == u.id
        · have : u' = u :=
            List.inj_on_of_nodup_map hid hu' hu (by simpa using hid')
          subst this
          simp [hid', refreshNames]
        · have hneq : u'.id ≠ u.id := by simpa using hid'
          simp [hid', hneq]
  | none =>
    unfold strikeOf
    simp only
    cases h2 : db.chats.find? (fun c => c.telegram_chat_id == tc) with
    | none => simp
    | some c' =>
      simp only [find?_append_one, h2]
      cases h4 : db.users.find? (fun x => x.telegram_user_id == tu) with
      | none =>
        simp only [Option.none_or]
        by_cases h5 : (newUserRow db tg).telegram_user_id == tu
        · simp only [h5, if_pos]
          have hnone : db.members.find?
              (fun m => m.chat_id == c'.id && m.user_id == (newUserRow db tg).id)
              = none := by
            rw [List.find?_eq_none]
            intro m hm
            have := (href m hm)
            simp only [newUserRow, Bool.and_eq_true, beq_iff_eq]
            rintro ⟨-, h7⟩
            omega
          simp [hnone]
        · simp [h5]
      | some u' => simp

theorem strikeOf_getOrCreateMember (db : DbState) (cid uid : Nat) (tc tu : Int) :
    strikeOf (getOrCreateMember db cid uid).2 tc tu = strikeOf db tc tu := by
  unfold getOrCreateMember
  cases h : db.members.find? (fun m => m.chat_id == cid && m.user_id == uid) with
  | some m => rfl
  | none =>
    unfold strikeOf
    simp only
    cases h2 : db.chats.find? (fun c => c.telegram_chat_id == tc) with
    | none => simp
    | some c' =>
      simp only
      cases h4 : db.users.find? (fun x => x.telegram_user_id == tu) with
      | none => simp
      | some u' =>
        simp only [find?_append_one, h4]
        cases h5 : db.members.find? (fun m => m.chat_id == c'.id && m.user_id == u'.id) with
        | some m' => simp [h5]
        | none =>
          simp only [h5, Option.none_or]
          by_cases h6 : ((newMemberRow cid uid).chat_id == c'.id &&
              (newMemberRow cid uid).user_id == u'.id)
          · have h6' : cid = c'.id ∧ uid = u'.id := by
              simpa [newMemberRow] using h6
            simp [h6', newMemberRow]
          · have h6' : ¬ (cid = c'.id ∧ uid = u'.id) := by
              simpa [newMemberRow] using h6
            simp [newMemberRow, h6']

theorem strikeOf_bumpStrike_other (db : DbState) (tcid tuid : Int) (c : Chat)
    (u : User) (now : Nat)
    (hcid : (db.chats.map (fun x => x.id)).Nodup)
    (huid : (db.users.map (fun x => x.id)).Nodup)
    (hc : db.chats.find? (fun x => x.telegram_chat_id == tcid) = some c)
    (hu : db.users.find? (fun x => x.telegram_user_id == tuid) = some u)
    (tc tu : Int) (hne : tc ≠ tcid ∨ tu ≠ tuid) :
    strikeOf (bumpStrike db c.id u.id now) tc tu = strikeOf db tc tu := by
  unfold bumpStrike strikeOf
  simp only
  cases h2 : db.chats.find? (fun x => x.telegram_chat_id == tc) with
  | none => simp
  | some c' =>
    simp only
    cases h4 : db.users.find? (fun x => x.telegram_user_id == tu) with
    | none => simp
    | some u' =>
      simp only
      have hmap : ∀ m ∈ db.members,
          (((if m.chat_id == c.id && m.user_id == u.id then
              { m with strike_count := m.strike_count + 1,
                       last_strike_at := some now }
             else m) : ChatMember).chat_id == c'.id &&
           ((if m.chat_id == c.id && m.user_id == u.id then
              { m with strike_count := m.strike_count + 1,
                       last_strike_at := some now }
             else m) : ChatMember).user_id == u'.id)
          = (m.chat_id == c'.id && m.user_id == u'.id) := by
        intro m _
        by_cases hm : m.chat_id == c.id && m.user_id == u.id
        · simp [hm]
        · simp [hm]
      rw [find?_map_self _ _ _ hmap]
      cases h5 : db.members.find? (fun m => m.chat_id == c'.id && m.user_id == u'.id) with
      | none => simp
      | some m' =>
        have hm' := List.find?_some h5
        have hkey : m'.chat_id = c'.id ∧ m'.user_id = u'.id := by
          simpa [Bool.and_eq_true, beq_iff_eq] using hm'
        have hne' : ¬ (m'.chat_id == c.id && m'.user_id == u.id) = true := by
          simp only [Bool.and_eq_true, beq_iff_eq]
          rintro ⟨hcc, huu⟩
          rcases hne with hnc | hnu
          · have hc'c : c' = c := by
              apply List.inj_on_of_nodup_map hcid
                (List.mem_of_find?_eq_some h2) (List.mem_of_find?_eq_some hc)
              rw [← hkey.1, hcc]
            apply hnc
            have h2' := List.find?_some h2
            have hc2 := List.find?_some hc
            rw [hc'c] at h2'
            have e1 : c.telegram_chat_id = tc := by simpa using h2'
            have e2 : c.telegram_chat_id = tcid := by simpa using hc2
            rw [← e1, e2]
          · have hu'u : u' = u := by
              apply List.inj_on_of_nodup_map huid
                (List.mem_of_find?_eq_some h4) (List.mem_of_find?_eq_some hu)
              rw [← hkey.2, huu]
            apply hnu
            have h4' := List.find?_some h4
            have hu2 := List.find?_some hu
            rw [hu'u] at h4'
            have e1 : u.telegram_user_id = tu := by simpa using h4'
            have e2 : u.telegram_user_id = tuid := by simpa using hu2
            rw [← e1, e2]
        have hne2 : ¬ (m'.chat_id = c.id ∧ m'.user_id = u.id) := by
          simpa using hne'
        simp [hne2]

theorem strikeOf_bumpStrike_self (db : DbState) (tcid tuid : Int) (c : Chat)
    (u : User) (m : ChatMember) (now : Nat)
    (hc : db.chats.find? (fun x => x.telegram_chat_id == tcid) = some c)
    (hu : db.users.find? (fun x => x.telegram_user_id == tuid) = some u)
    (hm : db.members.find? (fun x => x.chat_id == c.id && x.user_id == u.id) = some m) :
    strikeOf (bumpStrike db c.id u.id now) tcid tuid = m.strike_count + 1 := by
  unfold bumpStrike strikeOf
  simp only [hc, hu]
  have hmap : ∀ x ∈ db.members,
      (((if x.chat_id == c.id && x.user_id == u.id then
          { x with strike_count := x.strike_count + 1,
                   last_strike_at := some now }
         else x) : ChatMember).chat_id == c.id &&
       ((if x.chat_id == c.id && x.user_id == u.id then
          { x with strike_count := x.strike_count + 1,
                   last_strike_at := some now }
         else x) : ChatMember).user_id == u.id)
      = (x.chat_id == c.id && x.user_id == u.id) := by
    intro x _
    by_cases hx : x.chat_id == c.id && x.user_id == u.id
    · simp [hx]
    · simp [hx]
  rw [find?_map_self _ _ _ hmap, hm]
  have hkey := List.find?_some hm
  have hkey2 : m.chat_id = c.id ∧ m.user_id = u.id := by simpa using hkey
  simp [hkey2]

theorem strikeOf_default (db : DbState) (tcid tuid : Int) (c : Chat) (u : User)
    (hc : db.chats.find? (fun x => x.telegram_chat_id == tcid) = some c)
    (hu : db.users.find? (fun x => x.telegram_user_id == tuid) = some u) :
    strikeOf db tcid tuid =
      (getOrCreateMember db c.id u.id).1.strike_count := by
  unfold strikeOf getOrCreateMember
  simp only [hc, hu]
  cases h : db.members.find? (fun m => m.chat_id == c.id && m.user_id == u.id) with
  | some m => simp
  | none => simp [newMemberRow]

/-! ## Auxiliary facts about gating and target resolution -/

theorem not_service_inv (msg : TgMessage)
    (h : is_service_or_bot_message msg = false) :
    ∃ fu tx, msg.from_user = some fu ∧ msg.text = some tx := by
  unfold is_service_or_bot_message at h
  cases hfu : msg.from_user with
  | none => rw [hfu] at h; simp at h
  | some fu =>
    rw [hfu] at h
    cases htx : msg.text with
    | none => rw [htx] at h; simp at h
    | some tx => exact ⟨fu, tx, rfl, rfl⟩

theorem resolveTargets_fold_nodup (gs : List Int) (acc : List Int)
    (h : acc.Nodup) :
    (gs.foldl (fun acc cid => if acc.contains cid then acc else acc ++ [cid]) acc).Nodup := by
  induction gs generalizing acc with
  | nil => exact h
  | cons g t ih =>
    simp only [List.foldl_cons]
    by_cases hc : acc.contains g
    · rw [if_pos hc]; exact ih acc h
    · rw [if_neg hc]
      apply ih
      have hg : g ∉ acc := by simpa using hc
      simp [List.nodup_append, h, hg]

theorem resolveTargets_fold_head (gs : List Int) (acc : List Int)
    (h : acc ≠ []) :
    (gs.foldl (fun acc cid => if acc.contains cid then acc else acc ++ [cid]) acc).head? =
      acc.head? := by
  induction gs generalizing acc with
  | nil => rfl
  | cons g t ih =>
    simp only [List.foldl_cons]
    by_cases hc : acc.contains g
    · rw [if_pos hc]; exact ih acc h
    · rw [if_neg hc]
      rw [ih (acc ++ [g]) (by simp)]
      cases acc with
      | nil => exact absurd rfl h
      | cons a t2 => simp

theorem upsertUser_find (db : DbState) (tg : TgUser)
    (hid : (db.users.map (fun u => u.id)).Nodup) :
    (upsertUser db tg).2.users.find? (fun u => u.telegram_user_id == tg.id) =
      some (upsertUser db tg).1 := by
  unfold upsertUser
  cases h : db.users.find? (fun u => u.telegram_user_id == tg.id) with
  | some u =>
    have hu : u ∈ db.users := List.mem_of_find?_eq_some h
    have hmap : ∀ x ∈ db.users,
        ((if x.id == u.id then refreshNames tg u else x).telegram_user_id == tg.id)
          = (x.telegram_user_id == tg.id) := by
      intro x hx
      by_cases hxid : x.id == u.id
      · have hxu : x = u :=
          List.inj_on_of_nodup_map hid hx hu (by simpa using hxid)
        subst hxu
        simp [hxid, refreshNames]
      · simp [hxid]
    simp only
    rw [find?_map_self _ _ _ hmap, h, Option.map_some']
    simp
  | none =>
    simp only
    rw [find?_append_one, h, Option.none_or,
      if_pos (by simp [newUserRow])]

theorem upsertUser_ids_nodup (db : DbState) (tg : TgUser)
    (hid : (db.users.map (fun u => u.id)).Nodup)
    (hlt : ∀ u ∈ db.users, u.id < db.next_user_id) :
    ((upsertUser db tg).2.users.map (fun u => u.id)).Nodup := by
  unfold upsertUser
  cases h : db.users.find? (fun u => u.telegram_user_id == tg.id) with
  | some u =>
    simp only
    rw [map_id_of_field _ _ _ ?_]
    · exact hid
    · intro x
      by_cases hxid : x.id == u.id
      · have hx : x.id = u.id := by simpa using hxid
        simp [hxid, refreshNames, hx]
      · simp [hxid]
  | none =>
    simp only [List.map_append, List.map_cons, List.map_nil]
    rw [List.nodup_append]
    refine ⟨hid, by simp, ?_⟩
    intro a ha hb
    simp only [List.mem_singleton] at hb
    obtain ⟨u', hu', hua⟩ := List.mem_map.mp ha
    have := hlt u' hu'
    subst hb
    simp only [newUserRow] at hua
    omega

theorem getOrCreateChat_ids_nodup (db : DbState) (tcid : Int)
    (ti : Option String) (ty : String)
    (h : (db.chats.map (fun c => c.id)).Nodup)
    (hlt : ∀ c ∈ db.chats, c.id < db.next_chat_id) :
    ((getOrCreateChat db tcid ti ty).2.chats.map (fun c => c.id)).Nodup := by
  unfold getOrCreateChat
  cases hf : db.chats.find? (fun c => c.telegram_chat_id == tcid) with
  | some c => exact h
  | none =>
    simp only [List.map_append, List.map_cons, List.map_nil]
    rw [List.nodup_append]
    refine ⟨h, by simp, ?_⟩
    intro a ha hb
    simp only [List.mem_singleton] at hb
    obtain ⟨c', hc', hca⟩ := List.mem_map.mp ha
    have := hlt c' hc'
    subst hb
    simp only [newChatRow] at hca
    omega

theorem strikeOf_set_messages (dbX : DbState) (M : List MessageRecord)
    (n : Nat) (tc tu : Int) :
    strikeOf { dbX with messages := M, next_msg_id := n } tc tu =
      strikeOf dbX tc tu := rfl

theorem cb_apply_success (cfg : Config) (now : Nat) (lbl : String)
    (reviewer : TgUser) (icid : Int) (rid : Nat) (db : DbState)
    (msg0 : MessageRecord) (chat0 : Chat)
    (hm : db.messages.find? (fun m => m.id == rid) = some msg0)
    (hc : db.chats.find? (fun c => c.id == msg0.chat_id) = some chat0)
    (hauth : cfg.global_admin_chat_ids.contains icid = true ∨
      chat0.admin_chat_telegram_id = some icid) :
    cb_apply_human_label cfg now lbl reviewer icid rid db =
      ({ (upsertUser db reviewer).2 with
         messages := (upsertUser db reviewer).2.messages.map (fun m =>
           if m.id == rid then
             { m with human_label := some lbl,
                      human_labeled_at := some now,
                      human_labeled_by := some (upsertUser db reviewer).1.id }
           else m) },
       [Effect.editCard, Effect.answerOk]) := by
  unfold cb_apply_human_label
  simp only [hm, hc]
  rw [if_neg (by tauto)]

theorem find?_human_update (msgs : List MessageRecord) (rid : Nat)
    (lbl : String) (now uid : Nat) :
    (msgs.map (fun m =>
      if m.id == rid then
        { m with human_label := some lbl, human_labeled_at := some now,
                 human_labeled_by := some uid }
      else m)).find? (fun m => m.id == rid) =
      (msgs.find? (fun m => m.id == rid)).map (fun m =>
        if m.id == rid then
          { m with human_label := some lbl, human_labeled_at := some now,
                   human_labeled_by := some uid }
        else m) := by
  apply find?_map_self
  intro x _
  by_cases hx : x.id == rid
  · simp [hx]
  · simp [hx]

theorem strikeOf_cb_apply (cfg : Config) (t : Nat) (lbl : String)
    (reviewer : TgUser) (icid : Int) (rid : Nat) (db : DbState)
    (huid : (db.users.map (fun u => u.id)).Nodup)
    (hfr : ∀ m ∈ db.members, m.user_id < db.next_user_id)
    (tc tu : Int) :
    strikeOf (cb_apply_human_label cfg t lbl reviewer icid rid db).1 tc tu =
      strikeOf db tc tu := by
  unfold cb_apply_human_label
  cases h1 : db.messages.find? (fun m => m.id == rid) with
  | none => rfl
  | some msg_obj =>
    simp only
    cases h2 : db.chats.find? (fun c => c.id == msg_obj.chat_id) with
    | none => rfl
    | some chat_obj =>
      simp only
      split
      · rfl
      · calc strikeOf _ tc tu
            = strikeOf (upsertUser db reviewer).2 tc tu := rfl
          _ = strikeOf db tc tu := strikeOf_upsertUser db reviewer huid hfr tc tu

theorem persist_and_act_strikeOf (cfg : Config) (now : Nat) (msg : TgMessage)
    (fu : TgUser) (tx : String) (r : LlmModerationResult) (db : DbState)
    (hwf : WF db) :
    (is_scam_policy_of cfg r = false →
      ∀ tc tu, strikeOf (persist_and_act cfg now msg fu tx r db).db tc tu =
        strikeOf db tc tu) ∧
    (is_scam_policy_of cfg r = true →
      (strikeOf (persist_and_act cfg now msg fu tx r db).db msg.chat_id fu.id =
        strikeOf db msg.chat_id fu.id + 1) ∧
      (∀ tc tu, tc ≠ msg.chat_id ∨ tu ≠ fu.id →
        strikeOf (persist_and_act cfg now msg fu tx r db).db tc tu =
          strikeOf db tc tu)) := by
  obtain ⟨hcid, hctg, huid, hutg, hmkey, hclt, hult, hmref⟩ := hwf
  have s1 : ∀ tc tu,
      strikeOf (getOrCreateChat db msg.chat_id msg.chat_title msg.chat_type).2 tc tu =
        strikeOf db tc tu :=
    strikeOf_getOrCreateChat db msg.chat_id msg.chat_title msg.chat_type
      (fun m hmm => (hmref m hmm).1)
  have husers1 : (getOrCreateChat db msg.chat_id msg.chat_title msg.chat_type).2.users
      = db.users := getOrCreateChat_users db msg.chat_id msg.chat_title msg.chat_type
  have hid1 : ((getOrCreateChat db msg.chat_id msg.chat_title
      msg.chat_type).2.users.map (fun u => u.id)).Nodup := by
    rw [husers1]; exact huid
  have hfr1 : ∀ m ∈ (getOrCreateChat db msg.chat_id msg.chat_title
      msg.chat_type).2.members,
      m.user_id < (getOrCreateChat db msg.chat_id msg.chat_title
        msg.chat_type).2.next_user_id := by
    intro m hmm
    rw [getOrCreateChat_members] at hmm
    rw [getOrCreateChat_next_user]
    exact (hmref m hmm).2
  have s2 : ∀ tc tu,
      strikeOf (upsertUser (getOrCreateChat db msg.chat_id msg.chat_title
        msg.chat_type).2 fu).2 tc tu =
      strikeOf (getOrCreateChat db msg.chat_id msg.chat_title
        msg.chat_type).2 tc tu :=
    strikeOf_upsertUser _ fu hid1 hfr1
  have s3 : ∀ tc tu,
      strikeOf (getOrCreateMember
        (upsertUser (getOrCreateChat db msg.chat_id msg.chat_title
          msg.chat_type).2 fu).2
        (getOrCreateChat db msg.chat_id msg.chat_title msg.chat_type).1.id
        (upsertUser (getOrCreateChat db msg.chat_id msg.chat_title
          msg.chat_type).2 fu).1.id).2 tc tu =
      strikeOf (upsertUser (getOrCreateChat db msg.chat_id msg.chat_title
        msg.chat_type).2 fu).2 tc tu :=
    fun tc tu => strikeOf_getOrCreateMember _ _ _ tc tu
  have hc2 : (upsertUser (getOrCreateChat db msg.chat_id msg.chat_title
      msg.chat_type).2 fu).2.chats.find?
        (fun x => x.telegram_chat_id == msg.chat_id) =
      some (getOrCreateChat db msg.chat_id msg.chat_title msg.chat_type).1 := by
    rw [upsertUser_chats]
    exact getOrCreateChat_find db msg.chat_id msg.chat_title msg.chat_type
  have hu2 : (upsertUser (getOrCreateChat db msg.chat_id msg.chat_title
      msg.chat_type).2 fu).2.users.find?
        (fun x => x.telegram_user_id == fu.id) =
      some (upsertUser (getOrCreateChat db msg.chat_id msg.chat_title
        msg.chat_type).2 fu).1 :=
    upsertUser_find _ fu hid1
  have hc3 : (getOrCreateMember
      (upsertUser (getOrCreateChat db msg.chat_id msg.chat_title
        msg.chat_type).2 fu).2
      (getOrCreateChat db msg.chat_id msg.chat_title msg.chat_type).1.id
      (upsertUser (getOrCreateChat db msg.chat_id msg.chat_title
        msg.chat_type).2 fu).1.id).2.chats.find?
        (fun x => x.telegram_chat_id == msg.chat_id) =
      some (getOrCreateChat db msg.chat_id msg.chat_title msg.chat_type).1 := by
    rw [getOrCreateMember_chats]
    exact hc2
  have hu3 : (getOrCreateMember
      (upsertUser (getOrCreateChat db msg.chat_id msg.chat_title
        msg.chat_type).2 fu).2
      (getOrCreateChat db msg.chat_id msg.chat_title msg.chat_type).1.id
      (upsertUser (getOrCreateChat db msg.chat_id msg.chat_title
        msg.chat_type).2 fu).1.id).2.users.find?
        (fun x => x.telegram_user_id == fu.id) =
      some (upsertUser (getOrCreateChat db msg.chat_id msg.chat_title
        msg.chat_type).2 fu).1 := by
    rw [getOrCreateMember_users]
    exact hu2
  have hm3 := getOrCreateMember_find
    (upsertUser (getOrCreateChat db msg.chat_id msg.chat_title
      msg.chat_type).2 fu).2
    (getOrCreateChat db msg.chat_id msg.chat_title msg.chat_type).1.id
    (upsertUser (getOrCreateChat db msg.chat_id msg.chat_title
      msg.chat_type).2 fu).1.id
  have hdef := strikeOf_default
    (upsertUser (getOrCreateChat db msg.chat_id msg.chat_title
      msg.chat_type).2 fu).2 msg.chat_id fu.id
    (getOrCreateChat db msg.chat_id msg.chat_title msg.chat_type).1
    (upsertUser (getOrCreateChat db msg.chat_id msg.chat_title
      msg.chat_type).2 fu).1 hc2 hu2
  have hcid3 : ((getOrCreateMember
      (upsertUser (getOrCreateChat db msg.chat_id msg.chat_title
        msg.chat_type).2 fu).2
      (getOrCreateChat db msg.chat_id msg.chat_title msg.chat_type).1.id
      (upsertUser (getOrCreateChat db msg.chat_id msg.chat_title
        msg.chat_type).2 fu).1.id).2.chats.map (fun c => c.id)).Nodup := by
    rw [getOrCreateMember_chats, upsertUser_chats]
    exact getOrCreateChat_ids_nodup db msg.chat_id msg.chat_title msg.chat_type
      hcid hclt
  have huid3 : ((getOrCreateMember
      (upsertUser (getOrCreateChat db msg.chat_id msg.chat_title
        msg.chat_type).2 fu).2
      (getOrCreateChat db msg.chat_id msg.chat_title msg.chat_type).1.id
      (upsertUser (getOrCreateChat db msg.chat_id msg.chat_title
        msg.chat_type).2 fu).1.id).2.users.map (fun u => u.id)).Nodup := by
    rw [getOrCreateMember_users]
    apply upsertUser_ids_nodup _ fu hid1
    intro u hu
    rw [husers1] at hu
    rw [getOrCreateChat_next_user]
    exact hult u hu
  constructor
  · intro hs tc tu
    unfold persist_and_act
    simp only [hs, Bool.false_eq_true, if_false]
    rw [strikeOf_set_messages, s3, s2, s1]
  · intro hs
    constructor
    · unfold persist_and_act
      simp only [hs, if_true]
      rw [strikeOf_set_messages]
      rw [strikeOf_bumpStrike_self _ msg.chat_id fu.id _ _ _ now hc3 hu3 hm3]
      rw [← hdef, s2, s1]
    · intro tc tu hne
      unfold persist_and_act
      simp only [hs, if_true]
      rw [strikeOf_set_messages]
      rw [strikeOf_bumpStrike_other _ msg.chat_id fu.id _ _ now hcid3 huid3
        hc3 hu3 tc tu hne]
      rw [s3, s2, s1]

theorem handle_message_db_cases (cfg : Config) (now : Nat) (adm : Bool)
    (verdict : Option LlmModerationResult) (msg : TgMessage) (db : DbState) :
    handle_message cfg now adm verdict msg db = ⟨db, [], false⟩ ∨
    handle_message cfg now adm verdict msg db = ⟨db, [], true⟩ ∨
    (∃ fu tx r, msg.from_user = some fu ∧ msg.text = some tx ∧
      verdict = some r ∧
      handle_message cfg now adm verdict msg db =
        persist_and_act cfg now msg fu tx r db) := by
  unfold handle_message
  split
  · exact Or.inl rfl
  split
  · exact Or.inl rfl
  split
  · exact Or.inl rfl
  split
  · rename_i fu tx hfu htx
    split
    · exact Or.inl rfl
    · cases hv : verdict with
      | none => exact Or.inr (Or.inl rfl)
      | some r => exact Or.inr (Or.inr ⟨fu, tx, r, hfu, htx, rfl, rfl⟩)
  · exact Or.inl rfl

/-! ## Claim theorems -/

/-- C3: enforcement action selection is a total function of the new strike
count for every count ≥ 1 — count 1 selects WARN (an in-chat message only,
no restriction), count 2 selects MUTE with a 24-hour restriction, every
count ≥ 3 selects BAN; counts 1, 2, 3, 5 map to WARN, MUTE, BAN, BAN. -/
theorem escalation_policy_total (chat_id user_id : Int) (n : Int) (h : 1 ≤ n) :
    (n = 1 ∨ n = 2 ∨ 3 ≤ n) ∧
    (n = 1 → apply_escalation chat_id user_id (some n) = [Effect.sendMsg chat_id]) ∧
    (n = 2 → apply_escalation chat_id user_id (some n) =
      [Effect.restrict chat_id user_id MUTE_HOURS, Effect.sendMsg chat_id]) ∧
    (3 ≤ n → apply_escalation chat_id user_id (some n) =
      [Effect.ban chat_id user_id, Effect.sendMsg chat_id]) ∧
    MUTE_HOURS = 24 ∧
    apply_escalation chat_id user_id (some 1) = [Effect.sendMsg chat_id] ∧
    apply_escalation chat_id user_id (some 2) =
      [Effect.restrict chat_id user_id 24, Effect.sendMsg chat_id] ∧
    apply_escalation chat_id user_id (some 3) =
      [Effect.ban chat_id user_id, Effect.sendMsg chat_id] ∧
    apply_escalation chat_id user_id (some 5) =
      [Effect.ban chat_id user_id, Effect.sendMsg chat_id] := by
  refine ⟨by omega, ?_, ?_, ?_, rfl, ?_, ?_, ?_, ?_⟩
  · rintro rfl
    simp [apply_escalation, MAX_STRIKES_WARN]
  · rintro rfl
    simp [apply_escalation, MAX_STRIKES_WARN, MAX_STRIKES_MUTE, MUTE_HOURS]
  · intro h3
    have h1 : n ≠ MAX_STRIKES_WARN := by simp [MAX_STRIKES_WARN]; omega
    have h2 : n ≠ MAX_STRIKES_MUTE := by simp [MAX_STRIKES_MUTE]; omega
    have hb : MAX_STRIKES_BAN ≤ n := by simp [MAX_STRIKES_BAN]; omega
    simp [apply_escalation, h1, h2, hb]
  · simp [apply_escalation, MAX_STRIKES_WARN]
  · simp [apply_escalation, MAX_STRIKES_WARN, MAX_STRIKES_MUTE, MUTE_HOURS]
  · simp [apply_escalation, MAX_STRIKES_WARN, MAX_STRIKES_MUTE, MAX_STRIKES_BAN]
  · simp [apply_escalation, MAX_STRIKES_WARN, MAX_STRIKES_MUTE, MAX_STRIKES_BAN]

theorem escalation_policy_total_witness :
    (1 : Int) ≤ 2 ∧
    ((2 : Int) = 1 ∨ (2 : Int) = 2 ∨ 3 ≤ (2 : Int)) ∧
    ((2 : Int) = 1 → apply_escalation 10 20 (some 2) = [Effect.sendMsg 10]) ∧
    ((2 : Int) = 2 → apply_escalation 10 20 (some 2) =
      [Effect.restrict 10 20 MUTE_HOURS, Effect.sendMsg 10]) ∧
    (3 ≤ (2 : Int) → apply_escalation 10 20 (some 2) =
      [Effect.ban 10 20, Effect.sendMsg 10]) ∧
    MUTE_HOURS = 24 ∧
    apply_escalation 10 20 (some 1) = [Effect.sendMsg 10] ∧
    apply_escalation 10 20 (some 2) =
      [Effect.restrict 10 20 24, Effect.sendMsg 10] ∧
    apply_escalation 10 20 (some 3) =
      [Effect.ban 10 20, Effect.sendMsg 10] ∧
    apply_escalation 10 20 (some 5) =
      [Effect.ban 10 20, Effect.sendMsg 10] :=
  ⟨by decide, escalation_policy_total 10 20 2 (by decide)⟩

/-- C10: the escalation routine is a safe no-op outside the documented
domain — with strike_count `none` it returns immediately, and with any
count below 1 no branch matches: no message, restriction or ban results. -/
theorem escalation_out_of_domain (chat_id user_id : Int) (n : Int) (h : n < 1) :
    apply_escalation chat_id user_id none = [] ∧
    apply_escalation chat_id user_id (some n) = [] := by
  constructor
  · rfl
  · have h1 : n ≠ MAX_STRIKES_WARN := by simp [MAX_STRIKES_WARN]; omega
    have h2 : n ≠ MAX_STRIKES_MUTE := by simp [MAX_STRIKES_MUTE]; omega
    have hb : ¬ MAX_STRIKES_BAN ≤ n := by simp [MAX_STRIKES_BAN]; omega
    simp [apply_escalation, h1, h2, hb]

theorem escalation_out_of_domain_witness :
    (0 : Int) < 1 ∧
    (apply_escalation 10 20 none = [] ∧ apply_escalation 10 20 (some 0) = []) :=
  ⟨by decide, escalation_out_of_domain 10 20 0 (by decide)⟩

/-- C4: the claim says the gateway never raises and returns "no verdict" on
every failure, but when the HTTP response body itself is not valid JSON the
source evaluates `resp.json()` outside any try block (llm_client.py line 71)
and the `json.JSONDecodeError` escapes to the caller, contradicting the
claim and the function's own docstring ("При ошибке возвращает None"). -/
theorem classify_text_raises_on_invalid_json_body :
    classify_text (fun _ => none) (.response none) =
      .error .jsonDecodeError := rfl

/-- C7 (counterexample): the claim as stated says the target list for a chat
bound to local admin chat L with global set containing G1, G2 is always
[L, G1, G2] "even if L equals G1 or G2"; at L = G1 = 1, G2 = 2 the code
collapses the duplicate and produces [1, 2], not [1, 1, 2]. -/
theorem resolveTargets_literal_false :
    resolveTargets (some 1) [1, 2] = [1, 2] ∧
    resolveTargets (some 1) [1, 2] ≠ [1, 1, 2] := by
  constructor
  · rfl
  · decide

/-- C7 (amended): the notification destination list is the chat's bound
local admin-chat id (if any) first, followed by each configured global
admin-chat id in configured order that is not already present; it never
contains duplicates — for a bound chat L with globals G1, G2 it is
[L, G1, G2] when the three are pairwise distinct and collapses to [L, G2]
when L = G1 — and an empty destination list produces no send. -/
theorem resolveTargets_dedup_order :
    (∀ loc gs, (resolveTargets loc gs).Nodup) ∧
    (∀ (l : Int) gs, (resolveTargets (some l) gs).head? = some l) ∧
    (∀ L G1 G2 : Int, G1 ≠ L → G2 ≠ L → G2 ≠ G1 →
      resolveTargets (some L) [G1, G2] = [L, G1, G2]) ∧
    (∀ L G2 : Int, G2 ≠ L →
      resolveTargets (some L) [L, G2] = [L, G2]) ∧
    (∀ cfg db scid sc mid,
      resolveTargets (localAdminChatId db scid) cfg.global_admin_chat_ids = [] →
      notify_admins_about_scam cfg db scid sc mid = []) := by
  refine ⟨?_, ?_, ?_, ?_, ?_⟩
  · intro loc gs
    apply resolveTargets_fold_nodup
    cases loc <;> simp
  · intro l gs
    unfold resolveTargets
    exact resolveTargets_fold_head gs [l] (by simp)
  · intro L G1 G2 h1 h2 h3
    have c1 : ([L].contains G1) = false := by
      simp only [List.contains_cons, List.contains_nil, Bool.or_false, beq_iff_eq]
      simpa using h1
    have c2 : (([L] ++ [G1]).contains G2) = false := by
      simp only [List.append_eq, List.cons_append, List.nil_append,
        List.contains_cons, List.contains_nil, Bool.or_false, beq_iff_eq]
      simp only [Bool.or_eq_false_iff]
      exact ⟨by simpa using h2, by simpa using h3⟩
    unfold resolveTargets
    simp only [List.foldl_cons, List.foldl_nil]
    rw [c1]
    simp only [Bool.false_eq_true, if_false]
    rw [c2]
    simp
  · intro L G2 h2
    have c0 : ([L].contains L) = true := by simp
    have c2 : ([L].contains G2) = false := by
      simp only [List.contains_cons, List.contains_nil, Bool.or_false, beq_iff_eq]
      simpa using h2
    unfold resolveTargets
    simp only [List.foldl_cons, List.foldl_nil]
    rw [c0]
    simp only [if_true]
    rw [c2]
    simp
  · intro cfg db scid sc mid hempty
    unfold notify_admins_about_scam
    rw [hempty]
    rfl

theorem resolveTargets_dedup_order_witness :
    (resolveTargets (some 7) [8, 9]).Nodup ∧
    (resolveTargets (some 7) [8, 9]).head? = some 7 ∧
    ((8 : Int) ≠ 7 ∧ (9 : Int) ≠ 7 ∧ (9 : Int) ≠ 8 ∧
      resolveTargets (some 7) [8, 9] = [7, 8, 9]) ∧
    ((9 : Int) ≠ 7 ∧ resolveTargets (some 7) [7, 9] = [7, 9]) ∧
    (resolveTargets (localAdminChatId ⟨[], [], [], [], 0, 0, 0⟩ 5) [] = [] →
      notify_admins_about_scam ⟨[], 7/10, "gpt-4o-mini"⟩ ⟨[], [], [], [], 0, 0, 0⟩ 5
        none none = []) :=
  ⟨resolveTargets_dedup_order.1 (some 7) [8, 9],
   resolveTargets_dedup_order.2.1 7 [8, 9],
   ⟨by decide, by decide, by decide,
    resolveTargets_dedup_order.2.2.1 7 8 9 (by decide) (by decide) (by decide)⟩,
   ⟨by decide, resolveTargets_dedup_order.2.2.2.1 7 9 (by decide)⟩,
   resolveTargets_dedup_order.2.2.2.2 ⟨[], 7/10, "gpt-4o-mini"⟩
     ⟨[], [], [], [], 0, 0, 0⟩ 5 none none⟩

/-- C5: whenever any gate condition holds (non-group chat, admin-chat
source, missing/bot sender or missing text, administrator sender, or
whitelisted sender) the pipeline returns with the database untouched, no
effects, and without invoking the classifier. -/
theorem gate_skip_no_classification (cfg : Config) (now : Nat) (adm : Bool)
    (verdict : Option LlmModerationResult) (msg : TgMessage) (db : DbState)
    (h : (msg.chat_type ≠ "group" ∧ msg.chat_type ≠ "supergroup") ∨
         is_admin_chat_id cfg db msg.chat_id = true ∨
         is_service_or_bot_message msg = true ∨
         adm = true ∨
         (∃ fu, msg.from_user = some fu ∧
            is_whitelisted db msg.chat_id fu.id = true)) :
    handle_message cfg now adm verdict msg db = ⟨db, [], false⟩ := by
  unfold handle_message
  by_cases h1 : ¬ (msg.chat_type = "group" ∨ msg.chat_type = "supergroup")
  · rw [if_pos h1]
  · rw [if_neg h1]
    by_cases h2 : is_admin_chat_id cfg db msg.chat_id
    · rw [if_pos h2]
    · rw [if_neg h2]
      by_cases h3 : is_service_or_bot_message msg
      · rw [if_pos h3]
      · rw [if_neg h3]
        obtain ⟨fu, tx, hfu, htx⟩ :=
          not_service_inv msg (by simpa using h3)
        rcases h with hA | hB | hC | hD | hE
        · exact absurd (by tauto) h1
        · exact absurd hB (by simpa using h2)
        · exact absurd hC (by simpa using h3)
        · rw [hfu, htx]
          simp [hD]
        · obtain ⟨fu', hfu', hwl⟩ := hE
          rw [hfu] at hfu'
          cases hfu'
          rw [hfu, htx]
          simp [hwl]

theorem persist_and_act_messages (cfg : Config) (now : Nat) (msg : TgMessage)
    (fu : TgUser) (tx : String) (r : LlmModerationResult) (db : DbState) :
    ∃ rid cid uid,
      (persist_and_act cfg now msg fu tx r db).db.messages =
        db.messages ++ [moderationRecordOf cfg msg tx r rid cid uid] := by
  refine ⟨db.next_msg_id,
    (getOrCreateChat db msg.chat_id msg.chat_title msg.chat_type).1.id,
    (upsertUser (getOrCreateChat db msg.chat_id msg.chat_title msg.chat_type).2 fu).1.id,
    ?_⟩
  unfold persist_and_act
  simp only []
  by_cases hs : is_scam_policy_of cfg r = true
  · simp [hs, bumpStrike_messages, getOrCreateMember_messages, upsertUser_messages,
      getOrCreateChat_messages, bumpStrike_next_msg, getOrCreateMember_next_msg,
      upsertUser_next_msg, getOrCreateChat_next_msg]
  · simp [hs, getOrCreateMember_messages, upsertUser_messages,
      getOrCreateChat_messages, getOrCreateMember_next_msg,
      upsertUser_next_msg, getOrCreateChat_next_msg]

theorem persist_and_act_effects_nonscam (cfg : Config) (now : Nat)
    (msg : TgMessage) (fu : TgUser) (tx : String) (r : LlmModerationResult)
    (db : DbState) (h : is_scam_policy_of cfg r = false) :
    (persist_and_act cfg now msg fu tx r db).effects = [] := by
  unfold persist_and_act
  simp [h]

theorem handle_message_live (cfg : Config) (now : Nat) (adm : Bool)
    (verdict : Option LlmModerationResult) (msg : TgMessage) (db : DbState)
    (fu : TgUser) (tx : String)
    (hgrp : msg.chat_type = "group" ∨ msg.chat_type = "supergroup")
    (hadm_chat : is_admin_chat_id cfg db msg.chat_id = false)
    (hfu : msg.from_user = some fu) (hbot : fu.is_bot = false)
    (htx : msg.text = some tx)
    (hadm : adm = false)
    (hwl : is_whitelisted db msg.chat_id fu.id = false) :
    handle_message cfg now adm verdict msg db =
      match verdict with
      | none => ⟨db, [], true⟩
      | some r => persist_and_act cfg now msg fu tx r db := by
  have hsvc : is_service_or_bot_message msg = false := by
    unfold is_service_or_bot_message
    rw [hfu]
    simp [hbot, htx]
  unfold handle_message
  rw [if_neg (not_not_intro hgrp), if_neg (by simp [hadm_chat]),
    if_neg (by simp [hsvc]), hfu, htx]
  simp [hadm, hwl]

/-- C1: for every verdict processed past the gates, the persisted record's
effective-scam decision equals (label == "SCAM" and confidence ≥ threshold);
when the label is SCAM but the confidence is below the threshold a record is
still persisted, with skipped_reason "low_confidence" and is_scam_effective
false, and no enforcement or notification effect is produced. -/
theorem moderation_decision_and_low_confidence (cfg : Config) (now : Nat)
    (adm : Bool) (msg : TgMessage) (db : DbState) (fu : TgUser) (tx : String)
    (r : LlmModerationResult)
    (hgrp : msg.chat_type = "group" ∨ msg.chat_type = "supergroup")
    (hadm_chat : is_admin_chat_id cfg db msg.chat_id = false)
    (hfu : msg.from_user = some fu) (hbot : fu.is_bot = false)
    (htx : msg.text = some tx)
    (hadm : adm = false)
    (hwl : is_whitelisted db msg.chat_id fu.id = false) :
    ∃ rec,
      (handle_message cfg now adm (some r) msg db).db.messages =
        db.messages ++ [rec] ∧
      rec.is_scam_effective =
        some ((r.label == "SCAM") &&
          decide (cfg.default_confidence_threshold ≤ r.confidence)) ∧
      (r.label = "SCAM" → r.confidence < cfg.default_confidence_threshold →
        rec.skipped_reason = some "low_confidence" ∧
        rec.is_scam_effective = some false ∧
        (handle_message cfg now adm (some r) msg db).effects = []) := by
  have hred := handle_message_live cfg now adm (some r) msg db fu tx
    hgrp hadm_chat hfu hbot htx hadm hwl
  simp only at hred
  obtain ⟨rid, cid, uid, hmsgs⟩ :=
    persist_and_act_messages cfg now msg fu tx r db
  refine ⟨moderationRecordOf cfg msg tx r rid cid uid, ?_, ?_, ?_⟩
  · rw [hred]; exact hmsgs
  · simp [moderationRecordOf, is_scam_policy_of]
  · intro hlbl hconf
    have hpol : is_scam_policy_of cfg r = false := by
      unfold is_scam_policy_of
      simp [not_le.mpr hconf]
    refine ⟨?_, ?_, ?_⟩
    · simp [moderationRecordOf, skipped_reason_of, hpol, hlbl]
    · simp [moderationRecordOf, hpol]
    · rw [hred]
      exact persist_and_act_effects_nonscam cfg now msg fu tx r db hpol

theorem moderation_decision_and_low_confidence_witness :
    ((("group" : String) = "group" ∨ ("group" : String) = "supergroup") ∧
      is_admin_chat_id ⟨[], 7/10, "m"⟩ ⟨[], [], [], [], 0, 0, 0⟩ (-500) = false ∧
      (false : Bool) = false) ∧
    (∃ rec,
      (handle_message ⟨[], 7/10, "m"⟩ 0 false
          (some ⟨"SCAM", "crypto", 1/2, "r", none⟩)
          ⟨-500, "group", none, 77, some ⟨42, false, none, none, none⟩, some "t"⟩
          ⟨[], [], [], [], 0, 0, 0⟩).db.messages =
        ([] : List MessageRecord) ++ [rec] ∧
      rec.is_scam_effective =
        some ((("SCAM" : String) == "SCAM") && decide ((7/10 : ℚ) ≤ 1/2)) ∧
      (("SCAM" : String) = "SCAM" → (1/2 : ℚ) < 7/10 →
        rec.skipped_reason = some "low_confidence" ∧
        rec.is_scam_effective = some false ∧
        (handle_message ⟨[], 7/10, "m"⟩ 0 false
            (some ⟨"SCAM", "crypto", 1/2, "r", none⟩)
            ⟨-500, "group", none, 77, some ⟨42, false, none, none, none⟩, some "t"⟩
            ⟨[], [], [], [], 0, 0, 0⟩).effects = [])) :=
  ⟨⟨Or.inl rfl, rfl, rfl⟩,
   moderation_decision_and_low_confidence ⟨[], 7/10, "m"⟩ 0 false
     ⟨-500, "group", none, 77, some ⟨42, false, none, none, none⟩, some "t"⟩
     ⟨[], [], [], [], 0, 0, 0⟩ ⟨42, false, none, none, none⟩ "t"
     ⟨"SCAM", "crypto", 1/2, "r", none⟩
     (Or.inl rfl) rfl rfl rfl rfl rfl rfl⟩

/-- C6: when the gateway returns no verdict the pipeline leaves the database
untouched and produces no effect; and every record the pipeline ever adds
carries all four classifier fields. -/
theorem no_verdict_persists_nothing :
    (∀ cfg now adm msg db,
      (handle_message cfg now adm none msg db).db = db ∧
      (handle_message cfg now adm none msg db).effects = []) ∧
    (∀ cfg now adm verdict msg db rec,
      rec ∈ (handle_message cfg now adm verdict msg db).db.messages →
      rec ∈ db.messages ∨
        (rec.model_label.isSome ∧ rec.model_category.isSome ∧
         rec.model_confidence.isSome ∧ rec.model_reason.isSome)) := by
  constructor
  · intro cfg now adm msg db
    unfold handle_message
    split
    · exact ⟨rfl, rfl⟩
    split
    · exact ⟨rfl, rfl⟩
    split
    · exact ⟨rfl, rfl⟩
    split
    · split
      · exact ⟨rfl, rfl⟩
      · exact ⟨rfl, rfl⟩
    · exact ⟨rfl, rfl⟩
  · intro cfg now adm verdict msg db rec hmem
    unfold handle_message at hmem
    split at hmem
    · exact Or.inl hmem
    split at hmem
    · exact Or.inl hmem
    split at hmem
    · exact Or.inl hmem
    split at hmem
    · rename_i fu tx hfu htx
      split at hmem
      · exact Or.inl hmem
      · cases hv : verdict with
        | none => rw [hv] at hmem; exact Or.inl hmem
        | some r =>
          rw [hv] at hmem
          simp only at hmem
          obtain ⟨rid, cid, uid, hmsgs⟩ :=
            persist_and_act_messages cfg now msg fu tx r db
          rw [hmsgs] at hmem
          rcases List.mem_append.mp hmem with hold | hnew
          · exact Or.inl hold
          · right
            have : rec = moderationRecordOf cfg msg tx r rid cid uid := by
              simpa using hnew
            subst this
            simp [moderationRecordOf]
    · exact Or.inl hmem

theorem no_verdict_persists_nothing_witness :
    ((handle_message ⟨[], 7/10, "m"⟩ 0 false none
        ⟨-500, "group", none, 77, some ⟨42, false, none, none, none⟩, some "t"⟩
        ⟨[], [], [], [], 0, 0, 0⟩).db = ⟨[], [], [], [], 0, 0, 0⟩ ∧
      (handle_message ⟨[], 7/10, "m"⟩ 0 false none
        ⟨-500, "group", none, 77, some ⟨42, false, none, none, none⟩, some "t"⟩
        ⟨[], [], [], [], 0, 0, 0⟩).effects = []) ∧
    (∀ rec,
      rec ∈ (handle_message ⟨[], 7/10, "m"⟩ 0 false
          (some ⟨"SCAM", "crypto", 9/10, "r", none⟩)
          ⟨-500, "group", none, 77, some ⟨42, false, none, none, none⟩, some "t"⟩
          ⟨[], [], [], [], 0, 0, 0⟩).db.messages →
      rec ∈ ([] : List MessageRecord) ∨
        (rec.model_label.isSome ∧ rec.model_category.isSome ∧
         rec.model_confidence.isSome ∧ rec.model_reason.isSome)) :=
  ⟨no_verdict_persists_nothing.1 ⟨[], 7/10, "m"⟩ 0 false
     ⟨-500, "group", none, 77, some ⟨42, false, none, none, none⟩, some "t"⟩
     ⟨[], [], [], [], 0, 0, 0⟩,
   fun rec =>
     no_verdict_persists_nothing.2 ⟨[], 7/10, "m"⟩ 0 false
       (some ⟨"SCAM", "crypto", 9/10, "r", none⟩)
       ⟨-500, "group", none, 77, some ⟨42, false, none, none, none⟩, some "t"⟩
       ⟨[], [], [], [], 0, 0, 0⟩ rec⟩

/-- C8: a human-override invocation from a chat that is neither a global
admin chat nor the bound admin chat of the record's source chat is rejected
with the non-fatal "no access" alert and leaves the database — in
particular the record's human_label, human_labeled_at and human_labeled_by —
exactly as it was. -/
theorem override_unauthorized_rejected (cfg : Config) (now : Nat)
    (reviewer : TgUser) (icid : Int) (rid : Nat) (db : DbState)
    (msg0 : MessageRecord) (chat0 : Chat)
    (hm : db.messages.find? (fun m => m.id == rid) = some msg0)
    (hc : db.chats.find? (fun c => c.id == msg0.chat_id) = some chat0)
    (hglob : cfg.global_admin_chat_ids.contains icid = false)
    (hbound : chat0.admin_chat_telegram_id ≠ some icid) :
    cb_not_scam cfg now reviewer icid rid db = (db, [Effect.answerAlert]) ∧
    cb_mark_scam cfg now reviewer icid rid db = (db, [Effect.answerAlert]) := by
  have hauth : ¬ cfg.global_admin_chat_ids.contains icid = true ∧
      chat0.admin_chat_telegram_id ≠ some icid :=
    ⟨by rw [hglob]; simp, hbound⟩
  constructor
  · unfold cb_not_scam cb_apply_human_label
    simp only [hm, hc]
    rw [if_pos hauth]
  · unfold cb_mark_scam cb_apply_human_label
    simp only [hm, hc]
    rw [if_pos hauth]

/-- C9: two authorized overrides on the same record are last-write-wins —
"confirmed scam" then "not scam" leaves human_label NOT_SCAM with the
reviewer and timestamp of the second call — and no override changes any
membership's strike count or produces any enforcement effect. -/
theorem override_last_write_wins (cfg : Config) (t1 t2 : Nat) (r1 r2 : TgUser)
    (icid1 icid2 : Int) (rid : Nat) (db : DbState)
    (msg0 : MessageRecord) (chat0 : Chat)
    (hwf : WF db)
    (hm : db.messages.find? (fun m => m.id == rid) = some msg0)
    (hc : db.chats.find? (fun c => c.id == msg0.chat_id) = some chat0)
    (hauth1 : cfg.global_admin_chat_ids.contains icid1 = true ∨
      chat0.admin_chat_telegram_id = some icid1)
    (hauth2 : cfg.global_admin_chat_ids.contains icid2 = true ∨
      chat0.admin_chat_telegram_id = some icid2) :
    (∃ m' u,
      (cb_not_scam cfg t2 r2 icid2 rid
          (cb_mark_scam cfg t1 r1 icid1 rid db).1).1.messages.find?
            (fun m => m.id == rid) = some m' ∧
      m'.human_label = some "NOT_SCAM" ∧
      m'.human_labeled_at = some t2 ∧
      (cb_not_scam cfg t2 r2 icid2 rid
          (cb_mark_scam cfg t1 r1 icid1 rid db).1).1.users.find?
            (fun x => x.telegram_user_id == r2.id) = some u ∧
      m'.human_labeled_by = some u.id) ∧
    (∀ tc tu,
      strikeOf (cb_not_scam cfg t2 r2 icid2 rid
        (cb_mark_scam cfg t1 r1 icid1 rid db).1).1 tc tu = strikeOf db tc tu) ∧
    (∀ e, e ∈ (cb_mark_scam cfg t1 r1 icid1 rid db).2 ++
        (cb_not_scam cfg t2 r2 icid2 rid (cb_mark_scam cfg t1 r1 icid1 rid db).1).2 →
      isEnforcementEffect e = false) := by
  obtain ⟨hcid, hctg, huid, hutg, hmkey, hclt, hult, hmref⟩ := hwf
  have hid0 : (msg0.id == rid) = true := by
    simpa using List.find?_some hm
  have hstep1 : cb_mark_scam cfg t1 r1 icid1 rid db =
      ({ (upsertUser db r1).2 with
         messages := (upsertUser db r1).2.messages.map (fun m =>
           if m.id == rid then
             { m with human_label := some "SCAM", human_labeled_at := some t1,
                      human_labeled_by := some (upsertUser db r1).1.id }
           else m) },
       [Effect.editCard, Effect.answerOk]) :=
    cb_apply_success cfg t1 "SCAM" r1 icid1 rid db msg0 chat0 hm hc hauth1
  have hm1 : ((upsertUser db r1).2.messages.map (fun m =>
        if m.id == rid then
          { m with human_label := some "SCAM", human_labeled_at := some t1,
                   human_labeled_by := some (upsertUser db r1).1.id }
        else m)).find? (fun m => m.id == rid) =
      some { msg0 with human_label := some "SCAM", human_labeled_at := some t1,
                       human_labeled_by := some (upsertUser db r1).1.id } := by
    rw [upsertUser_messages, find?_human_update, hm, Option.map_some',
      if_pos hid0]
  have hc1 : ({ (upsertUser db r1).2 with
      messages := (upsertUser db r1).2.messages.map (fun m =>
        if m.id == rid then
          { m with human_label := some "SCAM", human_labeled_at := some t1,
                   human_labeled_by := some (upsertUser db r1).1.id }
        else m) } : DbState).chats.find?
        (fun c => c.id == msg0.chat_id) = some chat0 := by
    show (upsertUser db r1).2.chats.find? (fun c => c.id == msg0.chat_id) = some chat0
    rw [upsertUser_chats]
    exact hc
  have hstep2 := cb_apply_success cfg t2 "NOT_SCAM" r2 icid2 rid
    ({ (upsertUser db r1).2 with
       messages := (upsertUser db r1).2.messages.map (fun m =>
         if m.id == rid then
           { m with human_label := some "SCAM", human_labeled_at := some t1,
                    human_labeled_by := some (upsertUser db r1).1.id }
         else m) })
    { msg0 with human_label := some "SCAM", human_labeled_at := some t1,
                human_labeled_by := some (upsertUser db r1).1.id }
    chat0 hm1 hc1 hauth2
  have hnodup1 : (((upsertUser db r1).2.users).map (fun u => u.id)).Nodup :=
    upsertUser_ids_nodup db r1 huid hult
  have hfresh0 : ∀ m ∈ db.members, m.user_id < db.next_user_id :=
    fun m hmm => (hmref m hmm).2
  have hfresh1 : ∀ m ∈ (upsertUser db r1).2.members,
      m.user_id < (upsertUser db r1).2.next_user_id := by
    intro m hmm
    rw [upsertUser_members] at hmm
    have h1 := hfresh0 m hmm
    have h2 := upsertUser_next_user_ge db r1
    omega
  have hid1 : (({ msg0 with
                  human_label := some "SCAM",
                  human_labeled_at := some t1,
                  human_labeled_by := some (upsertUser db r1).1.id } :
        MessageRecord).id == rid) = true := hid0
  have hfind : (cb_not_scam cfg t2 r2 icid2 rid
      (cb_mark_scam cfg t1 r1 icid1 rid db).1).1.messages.find?
        (fun m => m.id == rid) =
      some { msg0 with
             human_label := some "NOT_SCAM",
             human_labeled_at := some t2,
             human_labeled_by := some (upsertUser
               ({ (upsertUser db r1).2 with
                  messages := (upsertUser db r1).2.messages.map (fun m =>
                    if m.id == rid then
                      { m with
                        human_label := some "SCAM",
                        human_labeled_at := some t1,
                        human_labeled_by := some (upsertUser db r1).1.id }
                    else m) }) r2).1.id } := by
    show (cb_apply_human_label cfg t2 "NOT_SCAM" r2 icid2 rid
        (cb_mark_scam cfg t1 r1 icid1 rid db).1).1.messages.find?
          (fun m => m.id == rid) = _
    rw [hstep1]
    simp only
    rw [hstep2]
    simp only
    have e3 : (upsertUser
        ({ (upsertUser db r1).2 with
           messages := (upsertUser db r1).2.messages.map (fun m =>
             if m.id == rid then
               { m with
                 human_label := some "SCAM",
                 human_labeled_at := some t1,
                 human_labeled_by := some (upsertUser db r1).1.id }
             else m) } : DbState) r2).2.messages =
        (upsertUser db r1).2.messages.map (fun m =>
          if m.id == rid then
            { m with
              human_label := some "SCAM",
              human_labeled_at := some t1,
              human_labeled_by := some (upsertUser db r1).1.id }
          else m) :=
      upsertUser_messages _ r2
    rw [e3, find?_human_update, hm1, Option.map_some', if_pos hid1]
  have husers : (cb_not_scam cfg t2 r2 icid2 rid
      (cb_mark_scam cfg t1 r1 icid1 rid db).1).1.users.find?
        (fun x => x.telegram_user_id == r2.id) =
      some (upsertUser
        ({ (upsertUser db r1).2 with
           messages := (upsertUser db r1).2.messages.map (fun m =>
             if m.id == rid then
               { m with human_label := some "SCAM",
                        human_labeled_at := some t1,
                        human_labeled_by := some (upsertUser db r1).1.id }
             else m) }) r2).1 := by
    show (cb_apply_human_label cfg t2 "NOT_SCAM" r2 icid2 rid
        (cb_mark_scam cfg t1 r1 icid1 rid db).1).1.users.find?
          (fun x => x.telegram_user_id == r2.id) = _
    rw [hstep1]
    simp only
    rw [hstep2]
    simp only
    show (upsertUser _ r2).2.users.find? _ = _
    exact upsertUser_find _ r2 hnodup1
  refine ⟨⟨_, _, hfind, rfl, rfl, husers, rfl⟩, ?_, ?_⟩
  · intro tc tu
    show strikeOf (cb_apply_human_label cfg t2 "NOT_SCAM" r2 icid2 rid
        (cb_mark_scam cfg t1 r1 icid1 rid db).1).1 tc tu = strikeOf db tc tu
    rw [hstep1]
    simp only
    rw [hstep2]
    simp only
    have e1 := strikeOf_upsertUser
      ({ (upsertUser db r1).2 with
         messages := (upsertUser db r1).2.messages.map (fun m =>
           if m.id == rid then
             { m with human_label := some "SCAM",
                      human_labeled_at := some t1,
                      human_labeled_by := some (upsertUser db r1).1.id }
           else m) } : DbState) r2 hnodup1 hfresh1 tc tu
    have e2 := strikeOf_upsertUser db r1 huid hfresh0 tc tu
    calc strikeOf _ tc tu
        = strikeOf ({ (upsertUser db r1).2 with
            messages := (upsertUser db r1).2.messages.map (fun m =>
              if m.id == rid then
                { m with human_label := some "SCAM",
                         human_labeled_at := some t1,
                         human_labeled_by := some (upsertUser db r1).1.id }
              else m) } : DbState) tc tu := e1
      _ = strikeOf (upsertUser db r1).2 tc tu := rfl
      _ = strikeOf db tc tu := e2
  · intro e he
    rw [hstep1] at he
    simp only at he
    have he2 : e ∈ (cb_apply_human_label cfg t2 "NOT_SCAM" r2 icid2 rid
        ({ (upsertUser db r1).2 with
           messages := (upsertUser db r1).2.messages.map (fun m =>
             if m.id == rid then
               { m with human_label := some "SCAM",
                        human_labeled_at := some t1,
                        human_labeled_by := some (upsertUser db r1).1.id }
             else m) } : DbState)).2 → e ∈ [Effect.editCard, Effect.answerOk] := by
      intro h3
      rw [hstep2] at h3
      simpa using h3
    have : e = Effect.editCard ∨ e = Effect.answerOk := by
      rcases List.mem_append.mp he with h4 | h4
      · simpa using h4
      · simpa using he2 h4
    rcases this with rfl | rfl <;> rfl

/-- C2: strike counts never decrease under the core operations; they change
only on the message pipeline, only for the message's own (chat, sender)
pair, only by exactly +1, and only when the verdict is label SCAM with
confidence at or above the threshold; gated, non-scam or low-confidence
processing and both human-override callbacks leave every pair's count
unchanged. -/
theorem strike_count_monotonic (cfg : Config) (now t : Nat) (adm : Bool)
    (verdict : Option LlmModerationResult) (msg : TgMessage)
    (reviewer : TgUser) (icid : Int) (rid : Nat) (db : DbState)
    (hwf : WF db) (tc tu : Int) :
    (strikeOf db tc tu ≤
      strikeOf (handle_message cfg now adm verdict msg db).db tc tu) ∧
    (strikeOf (handle_message cfg now adm verdict msg db).db tc tu ≠
        strikeOf db tc tu →
      ∃ fu r, msg.from_user = some fu ∧ verdict = some r ∧
        r.label = "SCAM" ∧ cfg.default_confidence_threshold ≤ r.confidence ∧
        tc = msg.chat_id ∧ tu = fu.id ∧
        strikeOf (handle_message cfg now adm verdict msg db).db tc tu =
          strikeOf db tc tu + 1) ∧
    (∀ fu tx r,
      (msg.chat_type = "group" ∨ msg.chat_type = "supergroup") →
      is_admin_chat_id cfg db msg.chat_id = false →
      msg.from_user = some fu → fu.is_bot = false → msg.text = some tx →
      adm = false → is_whitelisted db msg.chat_id fu.id = false →
      verdict = some r → r.label = "SCAM" →
      cfg.default_confidence_threshold ≤ r.confidence →
      strikeOf (handle_message cfg now adm verdict msg db).db msg.chat_id fu.id =
        strikeOf db msg.chat_id fu.id + 1) ∧
    (strikeOf (cb_not_scam cfg t reviewer icid rid db).1 tc tu =
      strikeOf db tc tu) ∧
    (strikeOf (cb_mark_scam cfg t reviewer icid rid db).1 tc tu =
      strikeOf db tc tu) := by
  have huid : (db.users.map (fun u => u.id)).Nodup := hwf.2.2.1
  have hfr : ∀ m ∈ db.members, m.user_id < db.next_user_id :=
    fun m hmm => (hwf.2.2.2.2.2.2.2 m hmm).2
  have hmain : (strikeOf db tc tu ≤
      strikeOf (handle_message cfg now adm verdict msg db).db tc tu) ∧
      (strikeOf (handle_message cfg now adm verdict msg db).db tc tu ≠
          strikeOf db tc tu →
        ∃ fu r, msg.from_user = some fu ∧ verdict = some r ∧
          r.label = "SCAM" ∧ cfg.default_confidence_threshold ≤ r.confidence ∧
          tc = msg.chat_id ∧ tu = fu.id ∧
          strikeOf (handle_message cfg now adm verdict msg db).db tc tu =
            strikeOf db tc tu + 1) := by
    rcases handle_message_db_cases cfg now adm verdict msg db with
      heq | heq | ⟨fu, tx, r, hfu, htx, hv, heq⟩
    · rw [heq]
      exact ⟨le_refl _, fun hne => absurd rfl hne⟩
    · rw [heq]
      exact ⟨le_refl _, fun hne => absurd rfl hne⟩
    · rw [heq]
      have hP := persist_and_act_strikeOf cfg now msg fu tx r db
        ⟨hwf.1, hwf.2.1, hwf.2.2.1, hwf.2.2.2.1, hwf.2.2.2.2.1,
         hwf.2.2.2.2.2.1, hwf.2.2.2.2.2.2.1, hwf.2.2.2.2.2.2.2⟩
      by_cases hs : is_scam_policy_of cfg r = true
      · have hlbl : r.label = "SCAM" ∧ cfg.default_confidence_threshold ≤
            r.confidence := by
          have := hs
          unfold is_scam_policy_of at this
          simpa using this
        by_cases hpair : tc = msg.chat_id ∧ tu = fu.id
        · obtain ⟨h1, h2⟩ := hpair
          subst h1
          subst h2
          rw [(hP.2 hs).1]
          exact ⟨Nat.le_succ _,
            fun _ => ⟨fu, r, hfu, hv, hlbl.1, hlbl.2, rfl, rfl, rfl⟩⟩
        · have hne : tc ≠ msg.chat_id ∨ tu ≠ fu.id := by tauto
          rw [(hP.2 hs).2 tc tu hne]
          exact ⟨le_refl _, fun hne2 => absurd rfl hne2⟩
      · have hs' : is_scam_policy_of cfg r = false := by
          simpa using hs
        rw [hP.1 hs' tc tu]
        exact ⟨le_refl _, fun hne => absurd rfl hne⟩
  refine ⟨hmain.1, hmain.2, ?_, ?_, ?_⟩
  · intro fu tx r hgrp hadm_chat hfu hbot htx hadm hwl hv hlbl hconf
    have hred := handle_message_live cfg now adm verdict msg db fu tx
      hgrp hadm_chat hfu hbot htx hadm hwl
    rw [hv] at hred
    rw [hv, hred]
    have hP := persist_and_act_strikeOf cfg now msg fu tx r db
      ⟨hwf.1, hwf.2.1, hwf.2.2.1, hwf.2.2.2.1, hwf.2.2.2.2.1,
       hwf.2.2.2.2.2.1, hwf.2.2.2.2.2.2.1, hwf.2.2.2.2.2.2.2⟩
    have hs : is_scam_policy_of cfg r = true := by
      unfold is_scam_policy_of
      simp [hlbl, hconf]
    exact (hP.2 hs).1
  · exact strikeOf_cb_apply cfg t "NOT_SCAM" reviewer icid rid db huid hfr tc tu
  · exact strikeOf_cb_apply cfg t "SCAM" reviewer icid rid db huid hfr tc tu

def cfgW : Config := ⟨[100, 200], 7/10, "m"⟩

def chatW : Chat := ⟨0, -500, none, "group", some 100⟩

def msgRecW : MessageRecord :=
  ⟨0, 0, 0, 77, "t", some "SCAM", some "crypto", some (9/10), some "r",
   none, some "m", none, none, none, some true, none⟩

def dbW : DbState := ⟨[chatW], [], [], [msgRecW], 1, 0, 1⟩

def revW : TgUser := ⟨99, false, some "rev", none, none⟩

def msgW : TgMessage :=
  ⟨-600, "group", some "W", 9, some ⟨42, false, none, none, none⟩, some "hi"⟩

def verW : LlmModerationResult := ⟨"SCAM", "crypto", 9/10, "r", none⟩

theorem strike_count_monotonic_witness :
    WF dbW ∧
    ((strikeOf dbW (-600) 42 ≤
      strikeOf (handle_message cfgW 0 false (some verW) msgW dbW).db (-600) 42) ∧
    (strikeOf (handle_message cfgW 0 false (some verW) msgW dbW).db (-600) 42 ≠
        strikeOf dbW (-600) 42 →
      ∃ fu r, msgW.from_user = some fu ∧ (some verW) = some r ∧
        r.label = "SCAM" ∧ cfgW.default_confidence_threshold ≤ r.confidence ∧
        (-600 : Int) = msgW.chat_id ∧ (42 : Int) = fu.id ∧
        strikeOf (handle_message cfgW 0 false (some verW) msgW dbW).db (-600) 42 =
          strikeOf dbW (-600) 42 + 1) ∧
    (∀ fu tx r,
      (msgW.chat_type = "group" ∨ msgW.chat_type = "supergroup") →
      is_admin_chat_id cfgW dbW msgW.chat_id = false →
      msgW.from_user = some fu → fu.is_bot = false → msgW.text = some tx →
      false = false → is_whitelisted dbW msgW.chat_id fu.id = false →
      (some verW) = some r → r.label = "SCAM" →
      cfgW.default_confidence_threshold ≤ r.confidence →
      strikeOf (handle_message cfgW 0 false (some verW) msgW dbW).db
          msgW.chat_id fu.id =
        strikeOf dbW msgW.chat_id fu.id + 1) ∧
    (strikeOf (cb_not_scam cfgW 1 revW 100 0 dbW).1 (-600) 42 =
      strikeOf dbW (-600) 42) ∧
    (strikeOf (cb_mark_scam cfgW 1 revW 100 0 dbW).1 (-600) 42 =
      strikeOf dbW (-600) 42)) :=
  ⟨by decide,
   strike_count_monotonic cfgW 0 1 false (some verW) msgW revW 100 0 dbW
     (by decide) (-600) 42⟩

theorem override_unauthorized_rejected_witness :
    (dbW.messages.find? (fun m => m.id == 0) = some msgRecW ∧
     dbW.chats.find? (fun c => c.id == msgRecW.chat_id) = some chatW ∧
     cfgW.global_admin_chat_ids.contains 300 = false ∧
     chatW.admin_chat_telegram_id ≠ some 300) ∧
    (cb_not_scam cfgW 5 revW 300 0 dbW = (dbW, [Effect.answerAlert]) ∧
     cb_mark_scam cfgW 5 revW 300 0 dbW = (dbW, [Effect.answerAlert])) :=
  ⟨⟨rfl, rfl, rfl, by decide⟩,
   override_unauthorized_rejected cfgW 5 revW 300 0 dbW msgRecW chatW
     rfl rfl rfl (by decide)⟩

theorem override_last_write_wins_witness :
    (WF dbW ∧
     dbW.messages.find? (fun m => m.id == 0) = some msgRecW ∧
     dbW.chats.find? (fun c => c.id == msgRecW.chat_id) = some chatW ∧
     (cfgW.global_admin_chat_ids.contains 100 = true ∨
       chatW.admin_chat_telegram_id = some 100) ∧
     (cfgW.global_admin_chat_ids.contains 200 = true ∨
       chatW.admin_chat_telegram_id = some 200)) ∧
    ((∃ m' u,
      (cb_not_scam cfgW 6 revW 200 0
          (cb_mark_scam cfgW 5 revW 100 0 dbW).1).1.messages.find?
            (fun m => m.id == 0) = some m' ∧
      m'.human_label = some "NOT_SCAM" ∧
      m'.human_labeled_at = some 6 ∧
      (cb_not_scam cfgW 6 revW 200 0
          (cb_mark_scam cfgW 5 revW 100 0 dbW).1).1.users.find?
            (fun x => x.telegram_user_id == revW.id) = some u ∧
      m'.human_labeled_by = some u.id) ∧
    (∀ tc tu,
      strikeOf (cb_not_scam cfgW 6 revW 200 0
        (cb_mark_scam cfgW 5 revW 100 0 dbW).1).1 tc tu = strikeOf dbW tc tu) ∧
    (∀ e, e ∈ (cb_mark_scam cfgW 5 revW 100 0 dbW).2 ++
        (cb_not_scam cfgW 6 revW 200 0 (cb_mark_scam cfgW 5 revW 100 0 dbW).1).2 →
      isEnforcementEffect e = false)) :=
  ⟨⟨by decide, rfl, rfl, Or.inl rfl, Or.inl rfl⟩,
   override_last_write_wins cfgW 5 6 revW revW 100 200 0 dbW msgRecW chatW
     (by decide) rfl rfl (Or.inl rfl) (Or.inl rfl)⟩

theorem gate_skip_no_classification_witness :
    ((("private" : String) ≠ "group" ∧ ("private" : String) ≠ "supergroup") ∨
      is_admin_chat_id ⟨[], 7/10, "m"⟩ ⟨[], [], [], [], 0, 0, 0⟩ 5 = true ∨
      is_service_or_bot_message ⟨5, "private", none, 1, none, none⟩ = true ∨
      false = true ∨
      (∃ fu, (⟨5, "private", none, 1, none, none⟩ : TgMessage).from_user = some fu ∧
        is_whitelisted ⟨[], [], [], [], 0, 0, 0⟩ 5 fu.id = true)) ∧
    handle_message ⟨[], 7/10, "m"⟩ 0 false none
        ⟨5, "private", none, 1, none, none⟩ ⟨[], [], [], [], 0, 0, 0⟩ =
      ⟨⟨[], [], [], [], 0, 0, 0⟩, [], false⟩ :=
  ⟨Or.inl (by decide),
   gate_skip_no_classification ⟨[], 7/10, "m"⟩ 0 false none
     ⟨5, "private", none, 1, none, none⟩ ⟨[], [], [], [], 0, 0, 0⟩
     (Or.inl (by decide))⟩

end AntiScam
